import Mathlib

/-!
Verification development for the baileys-api-server session / store /
message-addressing engine.  The definitions below are a shallow embedding of
the TypeScript source: `src/utils/jidHelper.ts`, `src/services/SessionManager.ts`
and `src/services/MessageService.ts`.  JavaScript strings are modelled as Lean
`String` (with `List Char` underneath), JS `Map` objects as update functions or
association lists, nullable values as `Option`, thrown exceptions as
`Except String`, and wall-clock reads (`Date.now()`) as an explicit `now`
parameter.
-/

namespace BaileysApi

/-! ## JavaScript string primitives -/

/-- JS `String.prototype.endsWith` on whole strings. -/
def strEndsWith (s pat : String) : Bool :=
  pat.data.isSuffixOf s.data

/-- Locate the first occurrence of `pat` in a character list, returning the
part before it and the part after it (JS `String.prototype.indexOf` plus
slicing, as used by single-replacement `String.prototype.replace`). -/
def splitFirst (pat : List Char) : List Char → Option (List Char × List Char)
  | [] => if pat.isPrefixOf ([] : List Char) then some ([], []) else none
  | c :: rest =>
    if pat.isPrefixOf (c :: rest) then some ([], (c :: rest).drop pat.length)
    else (splitFirst pat rest).map (fun p => (c :: p.1, p.2))

/-- JS `String.prototype.replace` with a *string* pattern: replaces only the
first occurrence, and returns the string unchanged when the pattern is
absent. -/
def replaceFirst (s pat rep : String) : String :=
  match splitFirst pat.data s.data with
  | some (pre, post) => ⟨pre ++ rep.data ++ post⟩
  | none => s

/-- JS regex test `/^\d+$/` : non-empty and all ASCII digits. -/
def isAllDigits (s : String) : Bool :=
  !s.data.isEmpty && s.data.all Char.isDigit

/-- JS string truthiness for a nullable string: `null`/`undefined` and `""`
are falsy. -/
def optStrTruthy : Option String → Bool
  | some s => !(s = "")
  | none => false

/-- JS `x || fallback` for a nullable string `x`. -/
def optStrOr (x : Option String) (fallback : String) : String :=
  match x with
  | some s => if s = "" then fallback else s
  | none => fallback

/-- JS `x || y` on two plain strings (`""` is falsy). -/
def strOr (x y : String) : String :=
  if x = "" then y else x

/-- JS `x || y` on numbers where `x` is `0`-falsy. -/
def natOr (x y : Nat) : Nat :=
  if x = 0 then y else x

/-- JS truthiness of a nullable number (`0`, `null`, `undefined` falsy). -/
def optNatTruthy : Option Nat → Bool
  | some n => !(n = 0)
  | none => false

/-- JS `Boolean.prototype.toString` as used in template literals. -/
def boolStr (b : Bool) : String :=
  if b then "true" else "false"

/-! ## `src/utils/jidHelper.ts` -/

/-- `toBaileysJid` of `src/utils/jidHelper.ts`: converts the wwebjs JID
convention (`@c.us`) to the Baileys convention (`@s.whatsapp.net`), leaving
group/broadcast JIDs untouched and suffixing bare phone numbers. -/
def toBaileysJid (id : String) : String :=
  if id = "" then id
  else if strEndsWith id "@g.us" then id
  else if strEndsWith id "@broadcast" then id
  else if id = "status@broadcast" then id
  else if strEndsWith id "@c.us" then replaceFirst id "@c.us" "@s.whatsapp.net"
  else if strEndsWith id "@s.whatsapp.net" then id
  else if isAllDigits id then id ++ "@s.whatsapp.net"
  else id

/-- `toWwebjsJid` of `src/utils/jidHelper.ts`: the inverse-direction
conversion, from the Baileys convention to the wwebjs convention. -/
def toWwebjsJid (id : String) : String :=
  if id = "" then id
  else if strEndsWith id "@g.us" then id
  else if strEndsWith id "@broadcast" then id
  else if strEndsWith id "@s.whatsapp.net" then replaceFirst id "@s.whatsapp.net" "@c.us"
  else if strEndsWith id "@c.us" then id
  else if isAllDigits id then id ++ "@c.us"
  else id

/-- `getPhoneNumber` of `src/utils/jidHelper.ts`: `jid.split('@')[0]`. -/
def getPhoneNumber (jid : String) : String :=
  if jid = "" then "" else ⟨jid.data.takeWhile (· ≠ '@')⟩

/-- `isGroupJid` of `src/utils/jidHelper.ts`. -/
def isGroupJid (jid : String) : Bool :=
  strEndsWith jid "@g.us"

/-- Return value of `createSerializedId` (wwebjs-shaped `{ _serialized, user,
server }`; the `_serialized` field is named `serialized` here). -/
structure SerializedId where
  serialized : String
  user : String
  server : String
deriving DecidableEq, Repr

/-- `createSerializedId` of `src/utils/jidHelper.ts`. -/
def createSerializedId (jid : String) : SerializedId :=
  let w := toWwebjsJid jid
  let parts := w.split (· = '@')
  { serialized := w
    user := parts.getD 0 ""
    server := parts.getD 1 "" }

/-- Return value of `createMessageId` (wwebjs-shaped `{ _serialized, fromMe,
remote, id }`; the `_serialized` field is named `serialized` here). -/
structure MessageId where
  serialized : String
  fromMe : Bool
  remote : String
  id : String
deriving DecidableEq, Repr

/-- `createMessageId` of `src/utils/jidHelper.ts`:
`` `${fromMe}_${toWwebjsJid(remote)}_${id}` ``. -/
def createMessageId (id remote : String) (fromMe : Bool) : MessageId :=
  let wwebjsRemote := toWwebjsJid remote
  { serialized := boolStr fromMe ++ "_" ++ wwebjsRemote ++ "_" ++ id
    fromMe := fromMe
    remote := wwebjsRemote
    id := id }

/-! ## Message keys and the per-session alias index
(`src/services/SessionManager.ts`) -/

/-- Baileys `WAMessageKey` (all fields nullable in the wire type).
`remoteJidAlt` / `participantAlt` are the optional alternate fields the code
reads through casts. -/
structure WAMessageKey where
  remoteJid : Option String := none
  fromMe : Option Bool := none
  id : Option String := none
  participant : Option String := none
  remoteJidAlt : Option String := none
  participantAlt : Option String := none
deriving DecidableEq, Repr

/-- The per-session `messageKeyIndex : Map<string, WAMessageKey>`, modelled by
its lookup function. -/
def KeyIndex : Type := String → Option WAMessageKey

/-- The empty `Map`. -/
def KeyIndex.empty : KeyIndex := fun _ => none

/-- `Map.prototype.set`. -/
def KeyIndex.set (m : KeyIndex) (a : String) (k : WAMessageKey) : KeyIndex :=
  fun a' => if a' = a then some k else m a'

/-- `Map.prototype.get`. -/
def KeyIndex.get (m : KeyIndex) (a : String) : Option WAMessageKey := m a

/-- The alias set built by `registerMessageKey` for a key with truthy id `i`
and non-empty remote list `remotes` (source order: the raw id first, then per
remote the chat-prefixed form, the `fromMe`-specific forms when `fromMe` is a
boolean, and both serialization conventions for both `fromMe` values). -/
def registerAliases (key : WAMessageKey) (i : String) (remotes : List String) :
    List String :=
  i :: remotes.flatMap (fun remoteJid =>
    [remoteJid ++ "_" ++ i]
    ++ (match key.fromMe with
        | some b => [(createMessageId i remoteJid b).serialized,
                     boolStr b ++ "_" ++ remoteJid ++ "_" ++ i]
        | none => [])
    ++ [(createMessageId i remoteJid true).serialized,
        (createMessageId i remoteJid false).serialized,
        "true_" ++ remoteJid ++ "_" ++ i,
        "false_" ++ remoteJid ++ "_" ++ i])

/-- `registerMessageKey` of `SessionManager` (the index-level part: the
session lookup is handled by the callers below).  A key without a truthy id is
ignored; a key without any truthy remote JID is indexed under the raw id only;
otherwise every alias is mapped to the key (last write wins). -/
def registerMessageKeyIndex (idx : KeyIndex) (key : WAMessageKey) : KeyIndex :=
  match key.id with
  | none => idx
  | some i =>
    if i = "" then idx
    else
      let remotes :=
        ([key.remoteJid, key.remoteJidAlt].filterMap id).filter (fun r => !(r = ""))
      if remotes.isEmpty then idx.set i key
      else (registerAliases key i remotes).foldl (fun m a => KeyIndex.set m a key) idx

/-- Result of `parseSerializedMessageId`. -/
structure ParsedMessageId where
  fromMe : Bool
  remoteJid : String
  id : String
deriving DecidableEq, Repr

/-- `parseSerializedMessageId` of `SessionManager`: the regex
`/^(true|false)_([^_]+)_(.+)$/` — a boolean prefix, then a non-empty
underscore-free remote JID, then a non-empty id (which may itself contain
underscores). -/
def parseSerializedMessageId (messageId : String) : Option ParsedMessageId :=
  let l := messageId.data
  let tryWith (b : Bool) (pref : List Char) : Option ParsedMessageId :=
    if pref.isPrefixOf l then
      let rest := l.drop pref.length
      let remote := rest.takeWhile (· ≠ '_')
      match remote, rest.drop remote.length with
      | [], _ => none
      | _ :: _, '_' :: idChars =>
        if idChars.isEmpty then none
        else some ⟨b, ⟨remote⟩, ⟨idChars⟩⟩
      | _ :: _, _ => none
    else none
  (tryWith true "true_".data).orElse (fun _ => tryWith false "false_".data)

/-! ## Local store data model (Baileys `makeInMemoryStore` contents, as read
by `SessionManager`) -/

/-- Baileys `IContextInfo`, restricted to the fields `formatMessage` reads.
`quotedMessage` is an opaque object; only its presence matters. -/
structure ContextInfo where
  isForwarded : Option Bool := none
  forwardingScore : Option Nat := none
  quotedMessage : Option Unit := none
  mentionedJid : Option (List String) := none
deriving DecidableEq, Repr

/-- `extendedTextMessage`. -/
structure ExtendedTextMessage where
  text : Option String := none
  matchedText : Option String := none
  contextInfo : Option ContextInfo := none
deriving DecidableEq, Repr

/-- `imageMessage` / `videoMessage` (caption-carrying media). -/
structure CaptionedMediaMessage where
  caption : Option String := none
  contextInfo : Option ContextInfo := none
deriving DecidableEq, Repr

/-- `audioMessage`. -/
structure AudioMessage where
  ptt : Option Bool := none
  contextInfo : Option ContextInfo := none
deriving DecidableEq, Repr

/-- `documentMessage`. -/
structure DocumentMessage where
  fileName : Option String := none
  contextInfo : Option ContextInfo := none
deriving DecidableEq, Repr

/-- `contactMessage`. -/
structure ContactMessage where
  vcard : Option String := none
deriving DecidableEq, Repr

/-- The three `pollCreationMessage` variants. -/
structure PollCreationMessage where
  name : Option String := none
deriving DecidableEq, Repr

/-- `reactionMessage`. -/
structure ReactionMessage where
  text : Option String := none
deriving DecidableEq, Repr

/-- `protocolMessage` (type is the proto enum;
`proto.Message.ProtocolMessage.Type.REVOKE = 0`). -/
structure ProtocolMessage where
  type : Option Nat := none
deriving DecidableEq, Repr

/-- The numeric value of `proto.Message.ProtocolMessage.Type.REVOKE`. -/
def protocolTypeRevoke : Nat := 0

/-- `proto.IMessage`, restricted to the variants `formatMessage` classifies. -/
structure MessageContent where
  conversation : Option String := none
  extendedTextMessage : Option ExtendedTextMessage := none
  imageMessage : Option CaptionedMediaMessage := none
  videoMessage : Option CaptionedMediaMessage := none
  audioMessage : Option AudioMessage := none
  documentMessage : Option DocumentMessage := none
  stickerMessage : Option Unit := none
  contactMessage : Option ContactMessage := none
  contactsArrayMessage : Option Unit := none
  locationMessage : Option Unit := none
  liveLocationMessage : Option Unit := none
  pollCreationMessage : Option PollCreationMessage := none
  pollCreationMessageV2 : Option PollCreationMessage := none
  pollCreationMessageV3 : Option PollCreationMessage := none
  reactionMessage : Option ReactionMessage := none
  protocolMessage : Option ProtocolMessage := none
deriving DecidableEq, Repr

/-- `proto.IWebMessageInfo` as stored in the Baileys in-memory store.
Timestamps (plain numbers, bigints or `Long` objects in JS) are collapsed to
the `Nat` they denote, `none` for an absent value. -/
structure StoredMessage where
  key : WAMessageKey := {}
  message : Option MessageContent := none
  messageTimestamp : Option Nat := none
  starred : Option Bool := none
  status : Option Nat := none
deriving DecidableEq, Repr

/-- `proto.IConversation` plus the extension fields `mapStoredChatToApi`
reads through casts (`muteEndTime`, `lastMsgTimestamp`, `pin`, `pinned`). -/
structure Conversation where
  id : Option String := none
  name : Option String := none
  conversationTimestamp : Option Nat := none
  unreadCount : Option Nat := none
  archived : Option Bool := none
  muteEndTime : Option Nat := none
  lastMsgTimestamp : Option Nat := none
  pin : Option Nat := none
  pinned : Option Nat := none
deriving DecidableEq, Repr

/-- Stored contact record (`store.contacts[jid]`). -/
structure ContactRecord where
  name : Option String := none
  notify : Option String := none
  verifiedName : Option String := none
deriving DecidableEq, Repr

/-- Group metadata, restricted to the fields `getChats` /
`mapStoredChatToApi` read (`{ subject?, announce?, creation? }`). -/
structure GroupMetaRecord where
  subject : Option String := none
  announce : Option Bool := none
  creation : Option Nat := none
deriving DecidableEq, Repr

/-- The Baileys in-memory store, as the session manager reads it:
`chats.all()` as a list, `contacts` / `groupMetadata` as association lists
keyed by JID, and `messages` as an association list from chat JID to the
chat's keyed message collection (whose `array` is the insertion-ordered list
and whose `get(id)` looks a message up by `key.id`). -/
structure Store where
  chats : List Conversation := []
  contacts : List (String × ContactRecord) := []
  groupMetadata : List (String × GroupMetaRecord) := []
  messages : List (String × List StoredMessage) := []
deriving DecidableEq, Repr

/-- `store.messages[jid]` (`undefined` when the chat has no collection). -/
def Store.messagesFor (store : Store) (jid : String) : Option (List StoredMessage) :=
  (store.messages.find? (fun p => p.1 = jid)).map (·.2)

/-- `store.messages[jid]?.get(id)`: lookup in the keyed collection by the
message key id. -/
def chatCollectionGet (msgs : List StoredMessage) (i : String) : Option StoredMessage :=
  msgs.find? (fun m => m.key.id = some i)

/-- `store.contacts[jid]`. -/
def Store.contactFor (store : Store) (jid : String) : Option ContactRecord :=
  (store.contacts.find? (fun p => p.1 = jid)).map (·.2)

/-- `store.groupMetadata[jid]`. -/
def Store.groupMetadataFor (store : Store) (jid : String) : Option GroupMetaRecord :=
  (store.groupMetadata.find? (fun p => p.1 = jid)).map (·.2)

/-- `store.chats.get(jid)` as wrapped by `getStoredChat` (the `try`/`catch`
collapses a throwing lookup to `undefined`). -/
def Store.chatFor (store : Store) (jid : String) : Option Conversation :=
  store.chats.find? (fun c => c.id = some jid)

/-! ## Sessions -/

/-- `SessionStatus` of `src/types`. -/
inductive SessionStatus where
  | connecting
  | qr
  | connected
  | disconnected
  | pairing
deriving DecidableEq, Repr

/-- `BaileysSession` of `src/types`, with the socket handle reduced to the
observable data the embedded operations use: a numeric identity (`socketId`)
and the socket's own account identity (`userId`, i.e. `socket.user?.id`). -/
structure Session where
  status : SessionStatus
  messageKeyIndex : KeyIndex := KeyIndex.empty
  store : Store := {}
  qr : Option String := none
  pairingCode : Option String := none
  phoneNumber : Option String := none
  reconnectAttempts : Nat := 0
  userId : Option String := none
  socketId : Nat := 0

/-- `registerMessageKey` of `SessionManager` acting on a session (the
`sessionId` lookup of the source is resolved by the caller; a `none` key is
ignored, as in the `!key?.id` guard). -/
def Session.registerMessageKey (s : Session) (key : Option WAMessageKey) : Session :=
  match key with
  | none => s
  | some k => { s with messageKeyIndex := registerMessageKeyIndex s.messageKeyIndex k }

/-- `SessionManager.toTimestamp`: numbers map to themselves, `Long`-like
objects to the number they hold, everything else to `0`. -/
def toTimestamp (value : Option Nat) : Nat :=
  value.getD 0

/-- `SessionManager.mapStatusToAck`: the proto `WebMessageInfo.Status` enum
(ERROR = 0, PENDING = 1, SERVER_ACK = 2, DELIVERY_ACK = 3, READ = 4,
PLAYED = 5) mapped to the wwebjs ack ordinals, defaulting to `0`. -/
def mapStatusToAck (status : Option Nat) : Int :=
  match status with
  | some 0 => -1
  | some 1 => 0
  | some 2 => 1
  | some 3 => 2
  | some 4 => 3
  | some 5 => 4
  | _ => 0

/-- `MessageData` of `src/types`, the wwebjs-shaped record built by
`formatMessage` (`_data` is named `rawData` here). -/
structure MessageData where
  id : MessageId
  body : String
  type : String
  timestamp : Nat
  sentFrom : String
  sentTo : String
  author : Option String
  isForwarded : Bool
  forwardingScore : Nat
  isStatus : Bool
  isStarred : Bool
  broadcast : Bool
  fromMe : Bool
  hasQuotedMsg : Bool
  hasMedia : Bool
  hasReaction : Bool
  ack : Int
  mentionedIds : List String
  groupMentions : List String
  links : List (String × Bool)
  rawData : StoredMessage
deriving DecidableEq, Repr

/-- The priority-ordered `type` / `body` / `hasMedia` classification chain at
the top of `formatMessage`. -/
def classifyMessage (m : MessageContent) : String × String × Bool :=
  if optStrTruthy m.conversation then
    ("chat", m.conversation.getD "", false)
  else if m.extendedTextMessage.isSome then
    ("chat", (m.extendedTextMessage.bind (·.text)).getD "", false)
  else if m.imageMessage.isSome then
    ("image", (m.imageMessage.bind (·.caption)).getD "", true)
  else if m.videoMessage.isSome then
    ("video", (m.videoMessage.bind (·.caption)).getD "", true)
  else if m.audioMessage.isSome then
    (if (m.audioMessage.bind (·.ptt)).getD false then "ptt" else "audio", "", true)
  else if m.documentMessage.isSome then
    ("document", (m.documentMessage.bind (·.fileName)).getD "", true)
  else if m.stickerMessage.isSome then
    ("sticker", "", true)
  else if m.contactMessage.isSome then
    ("vcard", (m.contactMessage.bind (·.vcard)).getD "", false)
  else if m.contactsArrayMessage.isSome then
    ("multi_vcard", "", false)
  else if m.locationMessage.isSome then
    ("location", "", false)
  else if m.liveLocationMessage.isSome then
    ("live_location", "", false)
  else if m.pollCreationMessage.isSome || m.pollCreationMessageV2.isSome
      || m.pollCreationMessageV3.isSome then
    ("poll",
      ((((m.pollCreationMessage.orElse fun _ => m.pollCreationMessageV2).orElse
          fun _ => m.pollCreationMessageV3).bind (·.name)).getD ""), false)
  else if m.reactionMessage.isSome then
    ("reaction", (m.reactionMessage.bind (·.text)).getD "", false)
  else if (m.protocolMessage.bind (·.type)) = some protocolTypeRevoke then
    ("revoked", "", false)
  else
    ("chat", "", false)

/-- The `contextInfo` chain of `formatMessage`: the first present context-info
substructure among text, image, video, document, audio. -/
def contextInfoOf (m : MessageContent) : Option ContextInfo :=
  ((((m.extendedTextMessage.bind (·.contextInfo)).orElse
      fun _ => m.imageMessage.bind (·.contextInfo)).orElse
      fun _ => m.videoMessage.bind (·.contextInfo)).orElse
      fun _ => m.documentMessage.bind (·.contextInfo)).orElse
      fun _ => m.audioMessage.bind (·.contextInfo)

/-- `formatMessage` of `SessionManager`.  `now` is `Math.floor(Date.now() /
1000)`; the session argument stands for the `sessionId` lookup used to read
the socket's own identity. -/
def formatMessage (s : Session) (now : Nat) (msg : StoredMessage) : MessageData :=
  let key := msg.key
  let message := msg.message.getD {}
  let tbh := classifyMessage message
  let contextInfo := contextInfoOf message
  let isForwarded := (contextInfo.bind (·.isForwarded)).getD false
  let forwardingScore := (contextInfo.bind (·.forwardingScore)).getD 0
  let hasQuotedMsg := (contextInfo.bind (·.quotedMessage)).isSome
  let mentionedIds := ((contextInfo.bind (·.mentionedJid)).getD []).map toWwebjsJid
  let links :=
    match message.extendedTextMessage.bind (·.matchedText) with
    | some t => if t = "" then [] else [(t, false)]
    | none => []
  let remoteJid := optStrOr key.remoteJid ""
  let participant :=
    if optStrTruthy key.participant then key.participant else key.participantAlt
  let ownJid := s.userId
  let fromMe := key.fromMe.getD false
  let fromJid := if fromMe then optStrOr ownJid remoteJid else optStrOr participant remoteJid
  let toJid := if fromMe then remoteJid else optStrOr ownJid remoteJid
  { id := createMessageId (optStrOr key.id "") remoteJid fromMe
    body := tbh.2.1
    type := tbh.1
    timestamp := natOr (toTimestamp msg.messageTimestamp) now
    sentFrom := toWwebjsJid (strOr fromJid remoteJid)
    sentTo := toWwebjsJid (strOr toJid remoteJid)
    author := if optStrTruthy participant then some (toWwebjsJid (participant.getD "")) else none
    isForwarded := isForwarded
    forwardingScore := forwardingScore
    isStatus := remoteJid = "status@broadcast"
    isStarred := msg.starred.getD false
    broadcast := strEndsWith remoteJid "@broadcast"
    fromMe := fromMe
    hasQuotedMsg := hasQuotedMsg
    hasMedia := tbh.2.2
    hasReaction := false
    ack := mapStatusToAck msg.status
    mentionedIds := mentionedIds
    groupMentions := []
    links := links
    rawData := msg }

/-! ## Message key resolution (`SessionManager.resolveMessageKey`) -/

/-- JS `Set` iteration order: insertion order with duplicates keeping their
first position. -/
def dedupFirst (l : List String) : List String :=
  l.foldl (fun acc c => if c ∈ acc then acc else acc ++ [c]) []

/-- The candidate alias strings built by `resolveMessageKey`, in source
order: the raw supplied id, the extracted raw id, the chat-prefixed form,
both serialization conventions for both `fromMe` values against the
normalized chat JID, and — when the supplied id parses as a serialized
id — the same forms against its embedded remote JID hint. -/
def resolveCandidates (chatJid rawId : String) (parsed : Option ParsedMessageId)
    (messageId : String) : List String :=
  let base := [messageId, rawId, chatJid ++ "_" ++ rawId,
    (createMessageId rawId chatJid false).serialized,
    "false_" ++ chatJid ++ "_" ++ rawId,
    (createMessageId rawId chatJid true).serialized,
    "true_" ++ chatJid ++ "_" ++ rawId]
  let extra :=
    match parsed with
    | some p =>
      if p.remoteJid = "" then []
      else
        let parsedRemote := toBaileysJid p.remoteJid
        [parsedRemote ++ "_" ++ rawId,
         (createMessageId rawId parsedRemote false).serialized,
         "false_" ++ parsedRemote ++ "_" ++ rawId,
         (createMessageId rawId parsedRemote true).serialized,
         "true_" ++ parsedRemote ++ "_" ++ rawId]
    | none => []
  dedupFirst (base ++ extra)

/-- The `for (const candidate of candidates)` lookup loop: first index hit
whose stored key has a truthy id. -/
def firstHit (idx : KeyIndex) : List String → Option WAMessageKey
  | [] => none
  | c :: rest =>
    match idx.get c with
    | some key => if optStrTruthy key.id then some key else firstHit idx rest
    | none => firstHit idx rest

/-- The `store.messages[chatJid]?.get(rawId)` fallback (also the semantics of
`store.loadMessage(chatJid, rawId)`, which reads the same in-memory
dictionary): a hit requires a truthy `key.id`. -/
def resolveFromChatStore (s : Session) (chatJid rawId : String) :
    Option (WAMessageKey × Session) :=
  match (s.store.messagesFor chatJid).bind (fun msgs => chatCollectionGet msgs rawId) with
  | some m =>
    if optStrTruthy m.key.id then some (m.key, s.registerMessageKey (some m.key))
    else none
  | none => none

/-- The last-resort scan over all chats' message collections
(`Object.entries(session.store.messages)`, first entry wins). -/
def storeScanForId (rawId : String) :
    List (String × List StoredMessage) → Option (String × WAMessageKey)
  | [] => none
  | (remoteJid, messages) :: rest =>
    match chatCollectionGet messages rawId with
    | some found =>
      if optStrTruthy found.key.id then some (remoteJid, found.key)
      else storeScanForId rawId rest
    | none => storeScanForId rawId rest

/-- The error thrown when every resolution strategy misses. -/
def resolveMissMessage : String :=
  "Message not found in local store. Ensure it was synced or received after this session started."

/-- `resolveMessageKey` of `SessionManager`: index lookup over the candidate
alias set, then chat-store lookup, then `loadMessage`, then the exhaustive
scan; every successful resolution re-registers the found key's alias set. -/
def resolveMessageKey (s : Session) (chatId messageId : String) :
    Except String (WAMessageKey × Session) :=
  if !(s.status = SessionStatus.connected) then .error "Session not connected"
  else
    let chatJid := toBaileysJid chatId
    let parsed := parseSerializedMessageId messageId
    let rawId := match parsed with | some p => strOr p.id messageId | none => messageId
    let candidates := resolveCandidates chatJid rawId parsed messageId
    match firstHit s.messageKeyIndex candidates with
    | some fromIndex =>
      let resolved : WAMessageKey :=
        { fromIndex with remoteJid := some (optStrOr fromIndex.remoteJid chatJid) }
      .ok (resolved, s.registerMessageKey (some resolved))
    | none =>
      match resolveFromChatStore s chatJid rawId with
      | some r => .ok r
      | none =>
        match resolveFromChatStore s chatJid rawId with
        | some r => .ok r
        | none =>
          match storeScanForId rawId s.store.messages with
          | some (remoteJid, foundKey) =>
            let key : WAMessageKey :=
              { foundKey with remoteJid := some (optStrOr foundKey.remoteJid remoteJid) }
            .ok (key, s.registerMessageKey (some key))
          | none => .error resolveMissMessage

/-- `getMessageById` of `SessionManager`: resolve the key, then return the
stored message (or `null` when the key lacks a truthy id/remote JID or the
message is not in the store). -/
def getMessageById (s : Session) (chatId messageId : String) :
    Except String (Option StoredMessage × Session) :=
  if !(s.status = SessionStatus.connected) then .error "Session not connected"
  else
    match resolveMessageKey s chatId messageId with
    | .error e => .error e
    | .ok (key, s') =>
      if !(optStrTruthy key.id) || !(optStrTruthy key.remoteJid) then .ok (none, s')
      else
        let rj := key.remoteJid.getD ""
        let i := key.id.getD ""
        match (s'.store.messagesFor rj).bind (fun msgs => chatCollectionGet msgs i) with
        | some loaded => .ok (some loaded, s')
        | none =>
          .ok ((s'.store.messagesFor rj).bind (fun msgs => chatCollectionGet msgs i), s')

/-- `getMessagesForChat` of `SessionManager`: the chat's stored messages
sorted latest-first (empty when the session is missing or not connected). -/
def getMessagesForChat (s : Session) (chatId : String) : List StoredMessage :=
  if !(s.status = SessionStatus.connected) then []
  else
    let jid := toBaileysJid chatId
    let entries := (s.store.messagesFor jid).getD []
    List.insertionSort
      (fun a b => toTimestamp b.messageTimestamp ≤ toTimestamp a.messageTimestamp)
      entries

/-- `getLastMessages` of `SessionManager`
(`slice(0, Math.max(count, 0))`, the identity clamp on `Nat`). -/
def getLastMessages (s : Session) (chatId : String) (count : Nat) : List StoredMessage :=
  (getMessagesForChat s chatId).take count

/-! ## Chat listing (`SessionManager.getChats`) -/

/-- `ChatData` of `src/types` as produced by `mapStoredChatToApi`. -/
structure ChatData where
  id : SerializedId
  name : String
  isGroup : Bool
  isReadOnly : Bool
  unreadCount : Nat
  timestamp : Nat
  archived : Bool
  pinned : Bool
  isMuted : Bool
  muteExpiration : Option Nat
  lastMessage : Option MessageData
deriving DecidableEq, Repr

/-- `getMostRecentMessage` of `SessionManager`: the stored message of the
chat with the strictly greatest timestamp (first wins on ties), formatted. -/
def getMostRecentMessage (s : Session) (now : Nat) (chatJid : String) :
    Option MessageData :=
  match s.store.messagesFor chatJid with
  | none => none
  | some [] => none
  | some (first :: rest) =>
    let latest := (first :: rest).foldl
      (fun acc m =>
        if toTimestamp acc.messageTimestamp < toTimestamp m.messageTimestamp then m
        else acc)
      first
    some (formatMessage s now latest)

/-- `mapStoredChatToApi` of `SessionManager`.  `now` is
`Math.floor(Date.now() / 1000)`. -/
def mapStoredChatToApi (s : Session) (now : Nat) (jid : String)
    (chat : Option Conversation) (groupMetadata : Option GroupMetaRecord) : ChatData :=
  let isGroup := isGroupJid jid
  let lastMessage := getMostRecentMessage s now jid
  let name :=
    optStrOr (groupMetadata.bind (·.subject))
      (optStrOr (chat.bind (·.name))
        (optStrOr ((s.store.contactFor jid).bind (·.name))
          (optStrOr ((s.store.contactFor jid).bind (·.notify)) (getPhoneNumber jid))))
  let muteExpiration := toTimestamp (chat.bind (·.muteEndTime))
  let nowSeconds := now
  let timestamp :=
    natOr (toTimestamp (chat.bind (·.conversationTimestamp)))
      (natOr (toTimestamp (chat.bind (·.lastMsgTimestamp)))
        (natOr ((groupMetadata.bind (·.creation)).getD 0)
          ((lastMessage.map (·.timestamp)).getD 0)))
  { id := createSerializedId jid
    name := name
    isGroup := isGroup
    isReadOnly := (groupMetadata.bind (·.announce)).getD false
    unreadCount := (chat.bind (·.unreadCount)).getD 0
    timestamp := timestamp
    archived := (chat.bind (·.archived)).getD false
    pinned := optNatTruthy (chat.bind (·.pin)) || optNatTruthy (chat.bind (·.pinned))
    isMuted := nowSeconds < muteExpiration
    muteExpiration := if 0 < muteExpiration then some muteExpiration else none
    lastMessage := lastMessage }

/-- The `chatsByJid` JS `Map`: an insertion-ordered association list with
update-in-place `set`. -/
abbrev ChatMap : Type := List (String × ChatData)

/-- `chatsByJid.has(jid)`. -/
def chatsHas (m : ChatMap) (k : String) : Bool :=
  (m.find? (fun p => p.1 = k)).isSome

/-- `chatsByJid.set(jid, data)`. -/
def chatsSet (m : ChatMap) (k : String) (v : ChatData) : ChatMap :=
  if chatsHas m k then m.map (fun p => if p.1 = k then (k, v) else p)
  else m ++ [(k, v)]

/-- `getChats`, first source: the tracked chat records
(`session.store.chats.all()`). -/
def getChatsStep1 (s : Session) (now : Nat) (m : ChatMap) : ChatMap :=
  s.store.chats.foldl
    (fun m chat =>
      match chat.id with
      | none => m
      | some cid =>
        if cid = "" || cid = "status@broadcast" then m
        else chatsSet m cid
          (mapStoredChatToApi s now cid (some chat) (s.store.groupMetadataFor cid)))
    m

/-- `getChats`, second source: the tracked group metadata. -/
def getChatsStep2 (s : Session) (now : Nat) (m : ChatMap) : ChatMap :=
  s.store.groupMetadata.foldl
    (fun m p =>
      if p.1 = "status@broadcast" then m
      else
        chatsSet m p.1
          (mapStoredChatToApi s now p.1
            (if chatsHas m p.1 then s.store.chatFor p.1 else none) (some p.2)))
    m

/-- `getChats`, third source: chats that only have observed messages. -/
def getChatsStep3 (s : Session) (now : Nat) (m : ChatMap) : ChatMap :=
  (s.store.messages.map (·.1)).foldl
    (fun m jid =>
      if jid = "status@broadcast" || chatsHas m jid then m
      else chatsSet m jid (mapStoredChatToApi s now jid none none))
    m

/-- `getChats`, fourth source: `socket.groupFetchAllParticipating()`
(modelled as an explicit outcome; a rejection is swallowed). -/
def getChatsStep4 (s : Session) (now : Nat)
    (fetched : Except Unit (List (String × GroupMetaRecord))) (m : ChatMap) : ChatMap :=
  match fetched with
  | .error _ => m
  | .ok groups =>
    groups.foldl
      (fun m p =>
        if chatsHas m p.1 then m
        else chatsSet m p.1 (mapStoredChatToApi s now p.1 (s.store.chatFor p.1) (some p.2)))
      m

/-- The fully merged `chatsByJid` map of `getChats`. -/
def getChatsMap (s : Session) (now : Nat)
    (fetched : Except Unit (List (String × GroupMetaRecord))) : ChatMap :=
  getChatsStep4 s now fetched (getChatsStep3 s now (getChatsStep2 s now (getChatsStep1 s now [])))

/-- `getChats` of `SessionManager`: empty for a missing / non-connected
session, otherwise the merged map's values sorted by timestamp descending. -/
def getChats (s : Session) (now : Nat)
    (fetched : Except Unit (List (String × GroupMetaRecord))) : List ChatData :=
  if !(s.status = SessionStatus.connected) then []
  else
    List.insertionSort (fun a b : ChatData => b.timestamp ≤ a.timestamp)
      ((getChatsMap s now fetched).map (·.2))

/-! ## Pairing codes (`SessionManager.requestPairingCode`) -/

/-- `requestPairingCode` of `SessionManager`.  `socketPairingCode` models
`socket.requestPairingCode` (an argument of the embedding because the socket
is external).  A missing session yields `null` (`ok none`); a socket
rejection is rethrown after the session has been moved to `pairing`. -/
def requestPairingCode (s : Option Session) (phoneNumber : String)
    (socketPairingCode : String → Except String String) :
    Except String (Option (String × Session)) :=
  match s with
  | none => .ok none
  | some session =>
    let cleanNumber : String := ⟨phoneNumber.data.filter Char.isDigit⟩
    let session := { session with phoneNumber := some cleanNumber,
                                  status := SessionStatus.pairing }
    match socketPairingCode cleanNumber with
    | .error e => .error e
    | .ok code => .ok (some (code, { session with pairingCode := some code }))

/-! ## Session-manager lifecycle state
(`startSession` / `stopSession` of `SessionManager`) -/

/-- The observable state of the `SessionManager` singleton: the live session
map, the `stoppingSessions` set, the pending store-persist debounce set, a
fresh-socket counter, and the set of sockets that have been opened and not
yet ended. -/
structure SMState where
  sessions : List (String × Session) := []
  stoppingSessions : List String := []
  storePersistTimeouts : List String := []
  nextSocketId : Nat := 0
  liveSockets : List Nat := []

/-- `sessions.get(sessionId)`. -/
def SMState.getSession (st : SMState) (sid : String) : Option Session :=
  (st.sessions.find? (fun p => p.1 = sid)).map (·.2)

/-- `sessions.set(sessionId, session)` (observationally a keyed overwrite). -/
def sessionsSet (m : List (String × Session)) (k : String) (v : Session) :
    List (String × Session) :=
  m.filter (fun p => !(p.1 = k)) ++ [(k, v)]

/-- `stopSession` of `SessionManager`: mark the id as manually stopping,
cancel the pending persist debounce, flush the store to disk, end the socket
and drop the session from the live map.  The delayed (5s) removal from
`stoppingSessions` is the separate `clearStopping` event. -/
def stopSession (st : SMState) (sid : String) : SMState :=
  match st.getSession sid with
  | none => st
  | some session =>
    { st with
      stoppingSessions := sid :: st.stoppingSessions
      storePersistTimeouts := st.storePersistTimeouts.erase sid
      liveSockets := st.liveSockets.erase session.socketId
      sessions := st.sessions.filter (fun p => !(p.1 = sid)) }

/-- The delayed `stoppingSessions.delete(sessionId)` scheduled by
`stopSession`. -/
def clearStopping (st : SMState) (sid : String) : SMState :=
  { st with stoppingSessions := st.stoppingSessions.filter (fun x => !(x = sid)) }

/-- `indexExistingMessages` of `SessionManager`: register the key of every
stored message of every chat. -/
def indexExistingMessages (s : Session) : Session :=
  s.store.messages.foldl
    (fun s' p => p.2.foldl (fun s'' m => s''.registerMessageKey (some m.key)) s')
    s

/-- The tail of `startSession` shared by the no-existing-session and
existing-but-not-connected paths: open a fresh socket bound to the on-disk
state (`initialStore` models the `store.json` load), create the session in
`connecting` state, index its pre-loaded messages and install it. -/
def startSessionFresh (st : SMState) (sid : String) (initialStore : Store) :
    Session × SMState × Bool :=
  let sock := st.nextSocketId
  let session : Session :=
    { status := SessionStatus.connecting
      messageKeyIndex := KeyIndex.empty
      store := initialStore
      qr := none
      pairingCode := none
      phoneNumber := none
      reconnectAttempts := 0
      userId := none
      socketId := sock }
  let session := indexExistingMessages session
  (session,
    { st with
      sessions := sessionsSet st.sessions sid session
      nextSocketId := sock + 1
      liveSockets := st.liveSockets ++ [sock] },
    true)

/-- `startSession` of `SessionManager`: idempotent on a connected session
(returned as-is, no socket opened); an existing non-connected session is
fully stopped first; then a fresh socket is opened.  The boolean reports
whether a new underlying socket was opened. -/
def startSession (st : SMState) (sid : String) (initialStore : Store) :
    Session × SMState × Bool :=
  match st.getSession sid with
  | some existing =>
    if existing.status = SessionStatus.connected then (existing, st, false)
    else startSessionFresh (stopSession st sid) sid initialStore
  | none => startSessionFresh st sid initialStore

/-! ## Message service (`src/services/MessageService.ts`) -/

/-- The `options` bag of `SendMessageOptions`, restricted to the fields the
text-sending path reads. -/
structure SendOptions where
  quotedMessageId : Option String := none
  mentions : Option (List String) := none
  linkPreview : Option Bool := none
deriving DecidableEq, Repr

/-- The link-preview metadata attached to an outgoing text message. -/
structure LinkPreviewMeta where
  title : String
  description : String
  canonicalUrl : String
  matchedText : String
deriving DecidableEq, Repr

/-- The fields of a fetched preview object carrying a `title` (the
`'title' in preview` branch of `getLinkPreview`'s result union). -/
structure PreviewData where
  title : Option String := none
  description : Option String := none
  url : Option String := none
deriving DecidableEq, Repr

/-- An entry of a `chatModify` `lastMessages` payload. -/
structure LastMessageRef where
  key : WAMessageKey
  messageTimestamp : Nat
deriving DecidableEq, Repr

/-- The underlying-socket invocations the modelled message-service
operations can make (the observable protocol surface). -/
inductive SocketCall where
  | readMessages (keys : List WAMessageKey)
  | chatModifyArchive (archive : Bool) (lastMessages : List LastMessageRef) (jid : String)
  | chatModifyMarkRead (markRead : Bool) (lastMessages : List LastMessageRef) (jid : String)
  | chatModifyPin (pin : Bool) (jid : String)
  | chatModifyMute (mute : Option Nat) (jid : String)
  | chatModifyClear (jid : String)
  | chatModifyDelete (lastMessages : List LastMessageRef) (jid : String)
  | chatModifyDeleteForMe (key : WAMessageKey) (timestamp : Nat) (jid : String)
  | sendReaction (jid : String) (emoji : String) (key : WAMessageKey)
  | star (jid : String) (ids : List (String × Option Bool)) (set : Bool)
  | sendDelete (jid : String) (key : WAMessageKey)
  | sendText (jid : String) (text : String) (quoted : Option StoredMessage)
      (mentions : Option (List String)) (linkPreview : Option LinkPreviewMeta)
deriving DecidableEq, Repr

/-- `MessageService.toTimestamp`: like the session manager's but defaulting
to the current wall-clock seconds instead of `0`. -/
def msToTimestamp (now : Nat) (value : Option Nat) : Nat :=
  value.getD now

/-- The first `http(s)` URL of a text, per the regex
`/(https?:\/\/[^\s]+)/`. -/
def findHttpUrlAux : List Char → Option (List Char)
  | [] => none
  | c :: rest =>
    if "http://".data.isPrefixOf (c :: rest) || "https://".data.isPrefixOf (c :: rest) then
      some ((c :: rest).takeWhile (fun ch => !ch.isWhitespace))
    else findHttpUrlAux rest

/-- String-level wrapper for `findHttpUrlAux`. -/
def findHttpUrl (text : String) : Option String :=
  (findHttpUrlAux text.data).map (fun l => ⟨l⟩)

/-- `getQuotedMessage` of `MessageService` (`getMessageById`, with `null`
collapsed to `undefined`). -/
def getQuotedMessage (s : Session) (chatJid messageId : String) :
    Except String (Option StoredMessage × Session) :=
  getMessageById s chatJid messageId

/-- `sendTextMessage` of `MessageService`.  `fetchPreview` models the
`getLinkPreview` network call (`.error` = rejection/timeout, `ok none` = a
result without a `title`); its failure is swallowed.  The quoted-message
lookup is *not* wrapped in a catch: a resolver throw propagates. -/
def sendTextMessage (s : Session) (jid text : String) (options : Option SendOptions)
    (fetchPreview : String → Except Unit (Option PreviewData)) :
    Except String (SocketCall × Session) :=
  if !(s.status = SessionStatus.connected) then .error "Session not connected"
  else
    let quotedStep : Except String (Option StoredMessage × Session) :=
      match options.bind (·.quotedMessageId) with
      | some qid => if qid = "" then .ok (none, s) else getQuotedMessage s jid qid
      | none => .ok (none, s)
    match quotedStep with
    | .error e => .error e
    | .ok (quoted, s') =>
      let mentions :=
        match options.bind (·.mentions) with
        | some l => if l.isEmpty then none else some (l.map toBaileysJid)
        | none => none
      let linkPreview :=
        if (options.bind (·.linkPreview)) = some false then none
        else
          match findHttpUrl text with
          | none => none
          | some url =>
            match fetchPreview url with
            | .error _ => none
            | .ok none => none
            | .ok (some pd) =>
              some { title := pd.title.getD ""
                     description := pd.description.getD ""
                     canonicalUrl := optStrOr pd.url url
                     matchedText := url }
      .ok (.sendText jid text quoted mentions linkPreview, s')

/-- `getChatModifyLastMessages` of `MessageService`: the last stored
messages with truthy key ids, as `chatModify` payload; an empty payload is a
hard failure. -/
def getChatModifyLastMessages (s : Session) (now : Nat) (chatId : String) (count : Nat) :
    Except String (List LastMessageRef) :=
  let messages := getLastMessages s chatId count
  let payload := (messages.filter (fun m => optStrTruthy m.key.id)).map
    (fun m => ({ key := m.key, messageTimestamp := msToTimestamp now m.messageTimestamp } :
      LastMessageRef))
  if payload.isEmpty then
    .error "No local messages found in this chat. Receive at least one message before modifying chat state."
  else .ok payload

/-- `getLastMessageKeys` of `MessageService`: keys of the last stored
messages having both a truthy id and remote JID. -/
def getLastMessageKeys (s : Session) (chatId : String) (count : Nat) :
    List WAMessageKey :=
  ((getLastMessages s chatId count).map (·.key)).filter
    (fun k => optStrTruthy k.id && optStrTruthy k.remoteJid)

/-- `markChatRead` of `MessageService`: silently returns (no socket call)
when the chat has no usable stored message. -/
def markChatRead (s : Session) (chatId : String) : Except String (Option SocketCall) :=
  if !(s.status = SessionStatus.connected) then .error "Session not connected"
  else
    let lastMessages := getLastMessageKeys s chatId 1
    if lastMessages.isEmpty then .ok none
    else .ok (some (.readMessages lastMessages))

/-- `markChatUnread` of `MessageService`. -/
def markChatUnread (s : Session) (now : Nat) (chatId : String) :
    Except String SocketCall :=
  if !(s.status = SessionStatus.connected) then .error "Session not connected"
  else
    let jid := toBaileysJid chatId
    match getChatModifyLastMessages s now chatId 1 with
    | .error e => .error e
    | .ok lastMessages => .ok (.chatModifyMarkRead false lastMessages jid)

/-- `archiveChat` of `MessageService`. -/
def archiveChat (s : Session) (now : Nat) (chatId : String) :
    Except String SocketCall :=
  if !(s.status = SessionStatus.connected) then .error "Session not connected"
  else
    let jid := toBaileysJid chatId
    match getChatModifyLastMessages s now chatId 1 with
    | .error e => .error e
    | .ok lastMessages => .ok (.chatModifyArchive true lastMessages jid)

/-- `unarchiveChat` of `MessageService`. -/
def unarchiveChat (s : Session) (now : Nat) (chatId : String) :
    Except String SocketCall :=
  if !(s.status = SessionStatus.connected) then .error "Session not connected"
  else
    let jid := toBaileysJid chatId
    match getChatModifyLastMessages s now chatId 1 with
    | .error e => .error e
    | .ok lastMessages => .ok (.chatModifyArchive false lastMessages jid)

/-- `pinChat` / `unpinChat` of `MessageService` (no last-message payload). -/
def pinChat (s : Session) (chatId : String) (pin : Bool) :
    Except String SocketCall :=
  if !(s.status = SessionStatus.connected) then .error "Session not connected"
  else .ok (.chatModifyPin pin (toBaileysJid chatId))

/-- `muteChat` of `MessageService` (`nowMs` is `Date.now()`; duration in
seconds, default `8 * 60 * 60`). -/
def muteChat (s : Session) (nowMs : Nat) (chatId : String) (duration : Nat) :
    Except String SocketCall :=
  if !(s.status = SessionStatus.connected) then .error "Session not connected"
  else .ok (.chatModifyMute (some (nowMs + duration * 1000)) (toBaileysJid chatId))

/-- `unmuteChat` of `MessageService` (`mute: null`). -/
def unmuteChat (s : Session) (chatId : String) : Except String SocketCall :=
  if !(s.status = SessionStatus.connected) then .error "Session not connected"
  else .ok (.chatModifyMute none (toBaileysJid chatId))

/-- `clearChat` of `MessageService` (no last-message payload). -/
def clearChat (s : Session) (chatId : String) : Except String SocketCall :=
  if !(s.status = SessionStatus.connected) then .error "Session not connected"
  else .ok (.chatModifyClear (toBaileysJid chatId))

/-- `deleteChat` of `MessageService`. -/
def deleteChat (s : Session) (now : Nat) (chatId : String) :
    Except String SocketCall :=
  if !(s.status = SessionStatus.connected) then .error "Session not connected"
  else
    let jid := toBaileysJid chatId
    match getChatModifyLastMessages s now chatId 1 with
    | .error e => .error e
    | .ok lastMessages => .ok (.chatModifyDelete lastMessages jid)

/-- `resolveMessageKeyWithRemote` of `MessageService`: the resolver's key
with a falsy `remoteJid` replaced by the normalized caller-supplied chat
id. -/
def resolveMessageKeyWithRemote (s : Session) (chatId messageId : String) :
    Except String (WAMessageKey × Session) :=
  match resolveMessageKey s chatId messageId with
  | .error e => .error e
  | .ok (key, s') =>
    .ok ({ key with remoteJid := some (optStrOr key.remoteJid (toBaileysJid chatId)) }, s')

/-- `reactToMessage` of `MessageService`. -/
def reactToMessage (s : Session) (chatId messageId emoji : String) :
    Except String (SocketCall × Session) :=
  if !(s.status = SessionStatus.connected) then .error "Session not connected"
  else
    match resolveMessageKeyWithRemote s chatId messageId with
    | .error e => .error e
    | .ok (messageKey, s') =>
      .ok (.sendReaction (messageKey.remoteJid.getD "") emoji messageKey, s')

/-- `starMessage` of `MessageService`. -/
def starMessage (s : Session) (chatId messageId : String) (star : Bool) :
    Except String (SocketCall × Session) :=
  if !(s.status = SessionStatus.connected) then .error "Session not connected"
  else
    match resolveMessageKeyWithRemote s chatId messageId with
    | .error e => .error e
    | .ok (messageKey, s') =>
      if !(optStrTruthy messageKey.id) then .error "Invalid message key"
      else
        .ok (.star (messageKey.remoteJid.getD "")
          [(messageKey.id.getD "", messageKey.fromMe)] star, s')

/-- `deleteMessage` of `MessageService` (`nowMs` is the `Date.now()` used by
the delete-for-me payload). -/
def deleteMessage (s : Session) (nowMs : Nat) (chatId messageId : String)
    (forEveryone : Bool) : Except String (SocketCall × Session) :=
  if !(s.status = SessionStatus.connected) then .error "Session not connected"
  else
    match resolveMessageKeyWithRemote s chatId messageId with
    | .error e => .error e
    | .ok (messageKey, s') =>
      if forEveryone then
        .ok (.sendDelete (messageKey.remoteJid.getD "") messageKey, s')
      else
        .ok (.chatModifyDeleteForMe messageKey nowMs (messageKey.remoteJid.getD ""), s')

/-- The candidate alias strings derivable from a message key with remote JID
`R` and id `I` (for both `fromMe` values): the raw id, the chat-prefixed
form, and both serialization conventions in either JID convention for `R` —
the alias closure described by the spec. -/
def claimAliases (R I : String) : List String :=
  [I,
   R ++ "_" ++ I,
   "true_" ++ R ++ "_" ++ I,
   "false_" ++ R ++ "_" ++ I,
   (createMessageId I R true).serialized,
   (createMessageId I R false).serialized]

/-! ## Reconnection policy
(`setupEventHandlers`' `connection.update` close branch, together with the
`startSession` retry it schedules) -/

/-- The configuration the close handler reads
(`config.maxReconnectRetries`, default 5). -/
structure ReconnCfg where
  maxReconnectRetries : Nat
deriving DecidableEq, Repr

/-- The per-session fields the close handler mutates. -/
structure ReconnSession where
  status : SessionStatus
  reconnectAttempts : Nat
deriving DecidableEq, Repr

/-- The state of one session id under the reconnect policy: the live-map
entry, membership in `stoppingSessions`, whether a `startSession` retry timer
is pending, and the reasons passed to `webhookService.sendDisconnected`. -/
structure ReconnState where
  session : Option ReconnSession
  stopping : Bool
  pendingReconnect : Bool
  disconnectedReasons : List String
deriving DecidableEq, Repr

/-- A `connection.update` `close` event with a *transient* status code
(anything but `DisconnectReason.loggedOut`): mark the session disconnected;
a manual stop suppresses everything; otherwise either schedule a retry
(when `reconnectAttempts < maxReconnectRetries`, incrementing the counter)
or emit the terminal `disconnected` notification with reason
`connection_lost`. -/
def connectionCloseTransient (cfg : ReconnCfg) (st : ReconnState) : ReconnState :=
  match st.session with
  | none => st
  | some sess =>
    let manualStop := st.stopping
    let sess := { sess with status := SessionStatus.disconnected }
    let st := { st with session := some sess }
    if manualStop then st
    else if sess.reconnectAttempts < cfg.maxReconnectRetries then
      { st with
        session := some { sess with reconnectAttempts := sess.reconnectAttempts + 1 }
        pendingReconnect := true }
    else
      { st with disconnectedReasons := st.disconnectedReasons ++ ["connection_lost"] }

/-- The scheduled `startSession` retry fires: the existing entry is
`disconnected`, so `startSession` first runs `stopSession` (adding the id to
`stoppingSessions` and removing the entry) and then installs a *fresh*
session object with `reconnectAttempts: 0` in `connecting` state. -/
def reconnectTimerFires (st : ReconnState) : ReconnState :=
  if st.pendingReconnect then
    { st with
      pendingReconnect := false
      stopping := true
      session := some { status := SessionStatus.connecting, reconnectAttempts := 0 } }
  else st

/-- The 5-second `stoppingSessions` cleanup scheduled by `stopSession`
expires. -/
def stoppingGraceExpires (st : ReconnState) : ReconnState :=
  { st with stopping := false }

/-- One full round of the simulated scenario of the reconnect-cap property:
a transient close, the retry timer firing, and the stopping grace window
expiring before the next close. -/
def transientDisconnectRound (cfg : ReconnCfg) (st : ReconnState) : ReconnState :=
  stoppingGraceExpires (reconnectTimerFires (connectionCloseTransient cfg st))

/-- The initial state of the scenario: a connected session with a zeroed
retry counter. -/
def reconnInit : ReconnState :=
  { session := some { status := SessionStatus.connected, reconnectAttempts := 0 }
    stopping := false
    pendingReconnect := false
    disconnectedReasons := [] }

/-- The state every round of the scenario lands in: a fresh `connecting`
session whose retry counter has been reset to zero. -/
def reconnLooping : ReconnState :=
  { session := some { status := SessionStatus.connecting, reconnectAttempts := 0 }
    stopping := false
    pendingReconnect := false
    disconnectedReasons := [] }

/-! ## Route-level session guard (`src/middleware/sessionMiddleware.ts`) -/

/-- The two failure responses of the session middleware
(`sendSessionNotFound` / `sendSessionNotConnected`). -/
inductive RouteFailure where
  | sessionNotFound
  | sessionNotConnected
deriving DecidableEq, Repr

/-- `sessionManager.hasSession`. -/
def hasSession (st : SMState) (sid : String) : Bool :=
  (st.getSession sid).isSome

/-- `sessionManager.isConnected`. -/
def isConnected (st : SMState) (sid : String) : Bool :=
  match st.getSession sid with
  | some s => s.status = SessionStatus.connected
  | none => false

/-- `sessionConnectedMiddleware`: the guard every per-session client / chat /
contact / group / message route of `src/routes/index.ts` runs before its
handler.  `none` means `next()` was called. -/
def sessionConnectedMW (st : SMState) (sessionIdParam : Option String) :
    Option RouteFailure :=
  match sessionIdParam with
  | none => some RouteFailure.sessionNotFound
  | some sid =>
    if sid = "" then some RouteFailure.sessionNotFound
    else if !(hasSession st sid) then some RouteFailure.sessionNotFound
    else if !(isConnected st sid) then some RouteFailure.sessionNotConnected
    else none

/-- A per-session route invocation: the middleware either fails the request
synchronously or passes control to the handler exactly once (there is no
retry path). -/
def routeInvoke {α : Type} (st : SMState) (sessionIdParam : Option String)
    (handler : SMState → α) : Except RouteFailure α :=
  match sessionConnectedMW st sessionIdParam with
  | some f => .error f
  | none => .ok (handler st)


/-! # Theorems -/

/-! ## String-suffix toolkit -/

theorem suffix_of_suffix_length_le {p q s : List Char} (hp : p <:+ s) (hq : q <:+ s)
    (h : p.length ≤ q.length) : p <:+ q := by
  have h1 : p.reverse <+: s.reverse := by
    rw [← List.reverse_suffix]; simpa using hp
  have h2 : q.reverse <+: s.reverse := by
    rw [← List.reverse_suffix]; simpa using hq
  have h3 : p.reverse <+: q.reverse :=
    List.prefix_of_prefix_length_le h1 h2 (by simpa using h)
  have h4 := (@List.reverse_suffix Char p.reverse q.reverse).mpr h3
  simpa using h4

theorem strEndsWith_iff {s pat : String} : strEndsWith s pat = true ↔ pat.data <:+ s.data := by
  simp [strEndsWith, List.isSuffixOf_iff_suffix]

theorem strEndsWith_eq_false_iff {s pat : String} :
    strEndsWith s pat = false ↔ ¬ pat.data <:+ s.data := by
  rw [← strEndsWith_iff]; simp

theorem strEndsWith_append_self (u w : String) : strEndsWith (u ++ w) w = true := by
  rw [strEndsWith_iff, String.data_append]; exact List.suffix_append u.data w.data

theorem strEndsWith_false_short {x pat w : String} (hw : strEndsWith x w = true)
    (hlen : pat.data.length ≤ w.data.length) (hne : ¬ pat.data <:+ w.data) :
    strEndsWith x pat = false := by
  rw [strEndsWith_eq_false_iff]
  intro hsuf
  exact hne (suffix_of_suffix_length_le hsuf (strEndsWith_iff.mp hw) hlen)

theorem strEndsWith_false_long {x pat w : String} (hw : strEndsWith x w = true)
    (hlen : w.data.length ≤ pat.data.length) (hne : ¬ w.data <:+ pat.data) :
    strEndsWith x pat = false := by
  rw [strEndsWith_eq_false_iff]
  intro hsuf
  exact hne (suffix_of_suffix_length_le (strEndsWith_iff.mp hw) hsuf hlen)

theorem strEndsWith_false_of_not_mem {x pat : String} {c : Char} (hc : c ∈ pat.data)
    (hx : c ∉ x.data) : strEndsWith x pat = false := by
  rw [strEndsWith_eq_false_iff]
  intro hsuf
  exact hx (List.IsSuffix.mem hc hsuf)

theorem ne_of_strEndsWith {x w : String} (hw : strEndsWith x w = true) (y : String)
    (hy : strEndsWith y w = false) : x ≠ y := by
  intro h; rw [h] at hw; rw [hw] at hy; exact Bool.noConfusion hy

theorem strEndsWith_length_le {x w : String} (hw : strEndsWith x w = true) :
    w.data.length ≤ x.data.length :=
  (strEndsWith_iff.mp hw).length_le

theorem ne_empty_of_strEndsWith {x w : String} (hw : strEndsWith x w = true)
    (hwne : w ≠ "") : x ≠ "" := by
  intro h
  apply hwne
  have := strEndsWith_length_le hw
  rw [h] at this
  simp at this
  cases w with
  | mk d => simp at this ⊢; exact congrArg String.mk this


theorem isPrefixOf_self (l : List Char) : l.isPrefixOf l = true := by
  induction l with
  | nil => rfl
  | cons c rest ih => simp [List.isPrefixOf, ih]

theorem splitFirst_append_self {pat u : List Char} (hp : pat.head? = some '@')
    (hu : '@' ∉ u) : splitFirst pat (u ++ pat) = some (u, []) := by
  induction u with
  | nil =>
    cases pat with
    | nil => simp at hp
    | cons c rest =>
      simp only [List.nil_append, splitFirst, isPrefixOf_self, if_true]
      simp
  | cons c u' ih =>
    have hc : c ≠ '@' := by
      intro h; exact hu (by simp [h])
    have hu' : '@' ∉ u' := by
      intro h; exact hu (by simp [h])
    cases pat with
    | nil => simp at hp
    | cons p pt =>
      have hpat : p = '@' := by simpa using hp
      have hpre : (p :: pt).isPrefixOf (c :: (u' ++ (p :: pt))) = false := by
        simp [List.isPrefixOf, hpat]
        intro h
        exact absurd h.symm hc
      simp only [List.cons_append, splitFirst, List.append_eq, hpre, Bool.false_eq_true,
        if_false]
      rw [ih hu']
      rfl

theorem replaceFirst_append {u pat rep : String} (hp : pat.data.head? = some '@')
    (hu : '@' ∉ u.data) : replaceFirst (u ++ pat) pat rep = u ++ rep := by
  rw [replaceFirst, String.data_append, splitFirst_append_self hp hu]
  show String.mk (u.data ++ rep.data ++ []) = u ++ rep
  rw [List.append_nil, ← String.data_append]


theorem append_ne_empty_right {u w : String} (hw : w ≠ "") : u ++ w ≠ "" := by
  intro h
  apply hw
  have := congrArg String.data h
  rw [String.data_append] at this
  have h2 := List.append_eq_nil.mp this
  cases w with
  | mk d => exact congrArg String.mk h2.2

theorem toBaileysJid_cus (u : String) (hu : '@' ∉ u.data) :
    toBaileysJid (u ++ "@c.us") = u ++ "@s.whatsapp.net" := by
  have hend : strEndsWith (u ++ "@c.us") "@c.us" = true := strEndsWith_append_self u _
  have hne : (u ++ "@c.us") ≠ "" := append_ne_empty_right (by decide)
  have hg : strEndsWith (u ++ "@c.us") "@g.us" = false :=
    strEndsWith_false_short hend (by decide) (by decide)
  have hb : strEndsWith (u ++ "@c.us") "@broadcast" = false :=
    strEndsWith_false_long hend (by decide) (by decide)
  have hsb : (u ++ "@c.us") ≠ "status@broadcast" :=
    ne_of_strEndsWith hend _ (by decide)
  simp only [toBaileysJid, if_neg hne, hg, hb, if_neg hsb, hend, Bool.false_eq_true,
    if_false, if_true]
  exact replaceFirst_append (by decide) hu

theorem toWwebjsJid_snet (u : String) (hu : '@' ∉ u.data) :
    toWwebjsJid (u ++ "@s.whatsapp.net") = u ++ "@c.us" := by
  have hend : strEndsWith (u ++ "@s.whatsapp.net") "@s.whatsapp.net" = true :=
    strEndsWith_append_self u _
  have hne : (u ++ "@s.whatsapp.net") ≠ "" := append_ne_empty_right (by decide)
  have hg : strEndsWith (u ++ "@s.whatsapp.net") "@g.us" = false :=
    strEndsWith_false_short hend (by decide) (by decide)
  have hb : strEndsWith (u ++ "@s.whatsapp.net") "@broadcast" = false :=
    strEndsWith_false_short hend (by decide) (by decide)
  simp only [toWwebjsJid, if_neg hne, hg, hb, hend, Bool.false_eq_true, if_false, if_true]
  exact replaceFirst_append (by decide) hu

theorem getPhoneNumber_append (u w : String) (hu : '@' ∉ u.data)
    (hw : w.data.head? = some '@') : getPhoneNumber (u ++ w) = u := by
  have hwne : w ≠ "" := by
    intro h; rw [h] at hw; simp at hw
  rw [getPhoneNumber, if_neg (append_ne_empty_right hwne), String.data_append]
  have key : ∀ l : List Char, '@' ∉ l → (l ++ w.data).takeWhile (· ≠ '@') = l := by
    intro l hl
    induction l with
    | nil =>
      simp only [List.nil_append]
      cases hd : w.data with
      | nil => rw [hd] at hw; simp at hw
      | cons c t =>
        rw [hd] at hw
        simp at hw
        simp [List.takeWhile, hw]
    | cons c l' ih =>
      have hc : ¬ c = '@' := by intro h; exact hl (by simp [h])
      have hl' : '@' ∉ l' := by intro h; exact hl (by simp [h])
      rw [List.cons_append, List.takeWhile_cons_of_pos (by simpa using hc), ih hl']
  rw [key u.data hu]

theorem toBaileysJid_group (g : String) (hg : strEndsWith g "@g.us" = true) :
    toBaileysJid g = g := by
  have hne : g ≠ "" := ne_empty_of_strEndsWith hg (by decide)
  simp [toBaileysJid, if_neg hne, hg]

theorem toWwebjsJid_group (g : String) (hg : strEndsWith g "@g.us" = true) :
    toWwebjsJid g = g := by
  have hne : g ≠ "" := ne_empty_of_strEndsWith hg (by decide)
  simp [toWwebjsJid, if_neg hne, hg]

theorem toBaileysJid_broadcast (b : String) (hb : strEndsWith b "@broadcast" = true) :
    toBaileysJid b = b := by
  have hne : b ≠ "" := ne_empty_of_strEndsWith hb (by decide)
  have hg : strEndsWith b "@g.us" = false :=
    strEndsWith_false_short hb (by decide) (by decide)
  simp [toBaileysJid, if_neg hne, hg, hb]

theorem toWwebjsJid_broadcast (b : String) (hb : strEndsWith b "@broadcast" = true) :
    toWwebjsJid b = b := by
  have hne : b ≠ "" := ne_empty_of_strEndsWith hb (by decide)
  have hg : strEndsWith b "@g.us" = false :=
    strEndsWith_false_short hb (by decide) (by decide)
  simp [toWwebjsJid, if_neg hne, hg, hb]

theorem not_at_mem_of_all_digits {d : String} (hd : isAllDigits d = true) :
    '@' ∉ d.data := by
  intro hmem
  simp only [isAllDigits, Bool.and_eq_true, List.all_eq_true] at hd
  have := hd.2 '@' hmem
  simp at this

theorem toBaileysJid_digits (d : String) (hd : isAllDigits d = true) :
    toBaileysJid d = d ++ "@s.whatsapp.net" := by
  have hat : '@' ∉ d.data := not_at_mem_of_all_digits hd
  have hne : d ≠ "" := by
    intro h
    rw [h] at hd
    simp [isAllDigits] at hd
  have h1 : strEndsWith d "@g.us" = false := strEndsWith_false_of_not_mem (by decide) hat
  have h2 : strEndsWith d "@broadcast" = false := strEndsWith_false_of_not_mem (by decide) hat
  have h3 : strEndsWith d "@c.us" = false := strEndsWith_false_of_not_mem (by decide) hat
  have h4 : strEndsWith d "@s.whatsapp.net" = false := strEndsWith_false_of_not_mem (by decide) hat
  have hsb : d ≠ "status@broadcast" := by
    intro h
    rw [h] at hat
    exact hat (by decide)
  simp [toBaileysJid, if_neg hne, h1, h2, h3, h4, if_neg hsb, hd]

theorem toWwebjsJid_digits (d : String) (hd : isAllDigits d = true) :
    toWwebjsJid d = d ++ "@c.us" := by
  have hat : '@' ∉ d.data := not_at_mem_of_all_digits hd
  have hne : d ≠ "" := by
    intro h
    rw [h] at hd
    simp [isAllDigits] at hd
  have h1 : strEndsWith d "@g.us" = false := strEndsWith_false_of_not_mem (by decide) hat
  have h2 : strEndsWith d "@broadcast" = false := strEndsWith_false_of_not_mem (by decide) hat
  have h3 : strEndsWith d "@c.us" = false := strEndsWith_false_of_not_mem (by decide) hat
  have h4 : strEndsWith d "@s.whatsapp.net" = false := strEndsWith_false_of_not_mem (by decide) hat
  simp [toWwebjsJid, if_neg hne, h1, h2, h3, h4, hd]

/-! ## Claim C9 — JID normalization round-trip -/

theorem jid_roundtrip_counterexample :
    strEndsWith "5@c.us@c.us" "@c.us" = true ∧
    toBaileysJid "5@c.us@c.us" = "5@s.whatsapp.net@c.us" ∧
    strEndsWith (toBaileysJid "5@c.us@c.us") "@s.whatsapp.net" = false ∧
    toWwebjsJid (toBaileysJid "5@c.us@c.us") ≠ "5@c.us@c.us" := by
  decide

/-- C9 (amended): JID normalization round-trip — for every individual
address whose user part contains no `@`, `toBaileysJid` maps the `@c.us`
form to the `@s.whatsapp.net` form (same user part) and `toWwebjsJid`
inverts it, and symmetrically in the other direction; group and broadcast
addresses are fixed points of both functions, and a bare all-digit string
gets the respective suffix appended.  (A user part containing an earlier
occurrence of the suffix breaks the round-trip, because JS
`String.replace` rewrites only the first occurrence — see the
counterexample.) -/
theorem jid_normalization_amended (u g b d : String)
    (hu : '@' ∉ u.data)
    (hg : strEndsWith g "@g.us" = true)
    (hb : strEndsWith b "@broadcast" = true)
    (hd : isAllDigits d = true) :
    toBaileysJid (u ++ "@c.us") = u ++ "@s.whatsapp.net" ∧
    strEndsWith (toBaileysJid (u ++ "@c.us")) "@s.whatsapp.net" = true ∧
    getPhoneNumber (toBaileysJid (u ++ "@c.us")) = getPhoneNumber (u ++ "@c.us") ∧
    toWwebjsJid (toBaileysJid (u ++ "@c.us")) = u ++ "@c.us" ∧
    toBaileysJid (toWwebjsJid (u ++ "@s.whatsapp.net")) = u ++ "@s.whatsapp.net" ∧
    toBaileysJid g = g ∧ toWwebjsJid g = g ∧
    toBaileysJid b = b ∧ toWwebjsJid b = b ∧
    toBaileysJid d = d ++ "@s.whatsapp.net" ∧ toWwebjsJid d = d ++ "@c.us" := by
  refine ⟨toBaileysJid_cus u hu, ?_, ?_, ?_, ?_,
    toBaileysJid_group g hg, toWwebjsJid_group g hg,
    toBaileysJid_broadcast b hb, toWwebjsJid_broadcast b hb,
    toBaileysJid_digits d hd, toWwebjsJid_digits d hd⟩
  · rw [toBaileysJid_cus u hu]; exact strEndsWith_append_self u _
  · rw [toBaileysJid_cus u hu, getPhoneNumber_append u _ hu (by decide),
      getPhoneNumber_append u _ hu (by decide)]
  · rw [toBaileysJid_cus u hu, toWwebjsJid_snet u hu]
  · rw [toWwebjsJid_snet u hu, toBaileysJid_cus u hu]

theorem jid_normalization_amended_witness :
    toWwebjsJid (toBaileysJid ("5551" ++ "@c.us")) = "5551" ++ "@c.us" ∧
    toBaileysJid "123-456@g.us" = "123-456@g.us" ∧
    toBaileysJid "777" = "777" ++ "@s.whatsapp.net" := by
  have h := jid_normalization_amended "5551" "123-456@g.us" "x@broadcast" "777"
    (by decide) (by decide) (by decide) (by decide)
  exact ⟨h.2.2.2.1, h.2.2.2.2.2.1, h.2.2.2.2.2.2.2.2.2.1⟩


/-! ## Claim C1 — alias closure of the message key index -/

theorem KeyIndex.get_foldl_set (l : List String) (idx : KeyIndex) (k : WAMessageKey)
    (a : String) :
    ((l.foldl (fun m x => KeyIndex.set m x k) idx)).get a =
      if a ∈ l then some k else idx.get a := by
  induction l generalizing idx with
  | nil => simp
  | cons x xs ih =>
    rw [List.foldl_cons, ih]
    by_cases hx : a = x
    · subst hx
      by_cases hmem : a ∈ xs <;> simp [hmem, KeyIndex.set, KeyIndex.get]
    · by_cases hmem : a ∈ xs <;> simp [hmem, hx, KeyIndex.set, KeyIndex.get]

theorem claimAliases_subset_registerAliases (k : WAMessageKey) (R I : String)
    (rest : List String) (a : String) (ha : a ∈ claimAliases R I) :
    a ∈ registerAliases k I (R :: rest) := by
  have hblock : ∀ x ∈ claimAliases R I, x = I ∨
      x ∈ ([R ++ "_" ++ I]
        ++ (match k.fromMe with
            | some b => [(createMessageId I R b).serialized,
                         boolStr b ++ "_" ++ R ++ "_" ++ I]
            | none => [])
        ++ [(createMessageId I R true).serialized,
            (createMessageId I R false).serialized,
            "true_" ++ R ++ "_" ++ I,
            "false_" ++ R ++ "_" ++ I]) := by
    intro x hx
    simp only [claimAliases, List.mem_cons, List.not_mem_nil, or_false] at hx
    rcases hx with h | h | h | h | h | h
    · exact Or.inl h
    all_goals (right; simp [h])
  rcases hblock a ha with h | h
  · simp [registerAliases, h]
  · simp only [registerAliases, List.mem_cons]
    right
    rw [List.mem_flatMap]
    exact ⟨R, by simp, h⟩

theorem registerMessageKeyIndex_get_alias (idx : KeyIndex) (k : WAMessageKey)
    (R I : String) (hid : k.id = some I) (hI : I ≠ "")
    (hR : k.remoteJid = some R) (hRne : R ≠ "") (a : String)
    (ha : a ∈ claimAliases R I) :
    (registerMessageKeyIndex idx k).get a = some k := by
  have hremotes :
      ([k.remoteJid, k.remoteJidAlt].filterMap id).filter (fun r => !(r = "")) =
        R :: (([k.remoteJidAlt].filterMap id).filter (fun r => !(r = ""))) := by
    simp [hR, hRne, List.filterMap, List.filter]
  simp only [registerMessageKeyIndex, hid, hremotes]
  rw [if_neg hI]
  simp only [List.isEmpty_cons, Bool.false_eq_true, if_false]
  rw [KeyIndex.get_foldl_set]
  rw [if_pos (claimAliases_subset_registerAliases k R I _ a ha)]


theorem dedup_foldl_extends (l acc : List String) :
    ∃ r, l.foldl (fun acc c => if c ∈ acc then acc else acc ++ [c]) acc = acc ++ r := by
  induction l generalizing acc with
  | nil => exact ⟨[], by simp⟩
  | cons x xs ih =>
    rw [List.foldl_cons]
    by_cases hx : x ∈ acc
    · rw [if_pos hx]; exact ih acc
    · rw [if_neg hx]
      obtain ⟨r, hr⟩ := ih (acc ++ [x])
      exact ⟨[x] ++ r, by rw [hr, List.append_assoc]⟩

theorem dedupFirst_cons (x : String) (l : List String) :
    ∃ t, dedupFirst (x :: l) = x :: t := by
  rw [dedupFirst, List.foldl_cons]
  simp only [List.not_mem_nil, if_false, List.nil_append]
  obtain ⟨r, hr⟩ := dedup_foldl_extends l [x]
  exact ⟨r, by rw [hr]; rfl⟩

theorem resolveCandidates_cons (chatJid rawId : String) (parsed : Option ParsedMessageId)
    (messageId : String) :
    ∃ t, resolveCandidates chatJid rawId parsed messageId = messageId :: t := by
  simp only [resolveCandidates, List.cons_append]
  exact dedupFirst_cons messageId _

theorem wamessagekey_eta_remote (k : WAMessageKey) (R : String)
    (hR : k.remoteJid = some R) : ({ k with remoteJid := some R } : WAMessageKey) = k := by
  cases k
  simp only at hR
  rw [← hR]

/-- C1: alias closure of the message key index — after `registerMessageKey`
has registered a key with non-empty id `I` and remote JID `R`, resolving any
of the candidate alias strings derivable from `(R, I, F)` or `(R, I, ¬F)`
(raw id, chat-prefixed form, and both serialization conventions in either
JID convention) returns a key equal to the registered one. -/
theorem resolve_alias_closure (s : Session) (k : WAMessageKey) (R I chatId a : String)
    (hconn : s.status = SessionStatus.connected)
    (hid : k.id = some I) (hI : I ≠ "")
    (hR : k.remoteJid = some R) (hRne : R ≠ "")
    (ha : a ∈ claimAliases R I) :
    ∃ s', resolveMessageKey (s.registerMessageKey (some k)) chatId a =
      Except.ok (k, s') := by
  have hst : (s.registerMessageKey (some k)).status = SessionStatus.connected := hconn
  have hidx : (s.registerMessageKey (some k)).messageKeyIndex.get a = some k :=
    registerMessageKeyIndex_get_alias s.messageKeyIndex k R I hid hI hR hRne a ha
  obtain ⟨t, ht⟩ := resolveCandidates_cons (toBaileysJid chatId)
    (match parseSerializedMessageId a with
     | some p => strOr p.id a
     | none => a)
    (parseSerializedMessageId a) a
  rw [resolveMessageKey]
  rw [hst]
  simp only [decide_True, Bool.not_true, Bool.false_eq_true, if_false]
  rw [ht]
  simp only [firstHit]
  rw [hidx]
  simp only [optStrTruthy, hid]
  rw [if_pos (by simpa using hI)]
  simp only [hR, optStrOr]
  rw [if_neg hRne]
  exact ⟨_, by rw [wamessagekey_eta_remote k R hR]⟩


theorem resolve_alias_closure_witness :
    ∃ s', resolveMessageKey
      (Session.registerMessageKey { status := SessionStatus.connected }
        (some { remoteJid := some "555@s.whatsapp.net", fromMe := some false,
                id := some "M1" }))
      "555@c.us" "false_555@c.us_M1" =
      Except.ok (({ remoteJid := some "555@s.whatsapp.net", fromMe := some false,
                    id := some "M1" } : WAMessageKey), s') :=
  resolve_alias_closure { status := SessionStatus.connected }
    { remoteJid := some "555@s.whatsapp.net", fromMe := some false, id := some "M1" }
    "555@s.whatsapp.net" "M1" "555@c.us" "false_555@c.us_M1"
    rfl rfl (by decide) rfl (by decide) (by decide)


/-! ## Claim C3 — idempotent start -/

theorem foldl_register_socketId (l : List StoredMessage) (s : Session) :
    (l.foldl (fun s' m => s'.registerMessageKey (some m.key)) s).socketId = s.socketId := by
  induction l generalizing s with
  | nil => rfl
  | cons m rest ih => rw [List.foldl_cons, ih]; rfl

theorem indexExistingMessages_socketId (s : Session) :
    (indexExistingMessages s).socketId = s.socketId := by
  rw [indexExistingMessages]
  suffices h : ∀ (l : List (String × List StoredMessage)) (s : Session),
      (l.foldl (fun s' p => p.2.foldl (fun s'' m => s''.registerMessageKey (some m.key)) s') s).socketId
        = s.socketId by
    exact h _ s
  intro l
  induction l with
  | nil => intro s; rfl
  | cons p rest ih =>
    intro s
    rw [List.foldl_cons, ih, foldl_register_socketId]

theorem filter_find?_ne (l : List (String × Session)) (sid : String) :
    (l.filter (fun p => !(p.1 = sid))).find? (fun p => p.1 = sid) = none := by
  rw [List.find?_eq_none]
  intro x hx
  have := List.of_mem_filter hx
  simpa using this

theorem filter_countP_ne (l : List (String × Session)) (sid : String) :
    (l.filter (fun p => !(p.1 = sid))).countP (fun p => p.1 = sid) = 0 := by
  rw [List.countP_eq_zero]
  intro x hx
  have := List.of_mem_filter hx
  simpa using this

/-- C3: idempotent start — starting an already-connected session id returns
the very same session object with the manager state untouched (no second
socket); starting over an existing non-connected session stops it first (its
socket leaves the live set) and opens exactly one fresh socket, leaving a
single live map entry for the id. -/
theorem startSession_idempotent (st : SMState) (sid : String) (initialStore : Store)
    (s : Session) (hget : st.getSession sid = some s) :
    (s.status = SessionStatus.connected →
      startSession st sid initialStore = (s, st, false)) ∧
    (¬ s.status = SessionStatus.connected →
      (startSession st sid initialStore).2.2 = true ∧
      ((startSession st sid initialStore).2.1).getSession sid =
        some (startSession st sid initialStore).1 ∧
      (startSession st sid initialStore).1.socketId = st.nextSocketId ∧
      ((startSession st sid initialStore).2.1).liveSockets =
        (st.liveSockets.erase s.socketId) ++ [st.nextSocketId] ∧
      ((startSession st sid initialStore).2.1).sessions.countP (fun p => p.1 = sid) = 1) := by
  constructor
  · intro hconn
    simp only [startSession, hget]
    rw [if_pos hconn]
  · intro hnc
    simp only [startSession, hget]
    rw [if_neg hnc]
    rw [stopSession, hget]
    refine ⟨rfl, ?_, ?_, rfl, ?_⟩
    · show (SMState.getSession _ sid) = _
      rw [SMState.getSession]
      show ((sessionsSet _ sid _).find? _).map _ = _
      rw [sessionsSet]
      rw [List.find?_append, filter_find?_ne]
      simp [startSessionFresh]
    · exact indexExistingMessages_socketId _
    · show List.countP _ (sessionsSet _ sid _) = 1
      rw [sessionsSet, List.countP_append, filter_countP_ne]
      simp


theorem startSession_idempotent_witness :
    startSession
      { sessions := [("s1", { status := SessionStatus.connected, socketId := 7 })],
        stoppingSessions := [], storePersistTimeouts := [],
        nextSocketId := 8, liveSockets := [7] }
      "s1" {} =
      ({ status := SessionStatus.connected, socketId := 7 },
       { sessions := [("s1", { status := SessionStatus.connected, socketId := 7 })],
         stoppingSessions := [], storePersistTimeouts := [],
         nextSocketId := 8, liveSockets := [7] },
       false) :=
  (startSession_idempotent
    { sessions := [("s1", { status := SessionStatus.connected, socketId := 7 })],
      stoppingSessions := [], storePersistTimeouts := [],
      nextSocketId := 8, liveSockets := [7] }
    "s1" {} { status := SessionStatus.connected, socketId := 7 } rfl).1 rfl


/-! ## Claim C8 — pairing code contract -/

/-- C8: `requestPairingCode` contract — a missing session yields the `null`
failure result; for an existing session the number handed to the underlying
socket is the input with every non-digit removed, the session transitions to
`pairing`, the returned code is stored on the session, and a socket
rejection propagates. -/
theorem requestPairingCode_contract (session : Session) (phoneNumber : String)
    (socketPairingCode : String → Except String String) :
    (requestPairingCode none phoneNumber socketPairingCode = .ok none) ∧
    (∀ code, socketPairingCode ⟨phoneNumber.data.filter Char.isDigit⟩ = .ok code →
      requestPairingCode (some session) phoneNumber socketPairingCode =
        .ok (some (code,
          { session with
              phoneNumber := some ⟨phoneNumber.data.filter Char.isDigit⟩
              status := SessionStatus.pairing
              pairingCode := some code }))) ∧
    (∀ e, socketPairingCode ⟨phoneNumber.data.filter Char.isDigit⟩ = .error e →
      requestPairingCode (some session) phoneNumber socketPairingCode = .error e) := by
  refine ⟨rfl, ?_, ?_⟩
  · intro code hcode
    simp only [requestPairingCode, hcode]
  · intro e herr
    simp only [requestPairingCode, herr]

theorem requestPairingCode_contract_witness :
    requestPairingCode (some { status := SessionStatus.connecting }) "+1 (555) 222"
      (fun n => .ok ("CODE-" ++ n)) =
      .ok (some ("CODE-1555222",
        { status := SessionStatus.pairing
          phoneNumber := some "1555222"
          pairingCode := some "CODE-1555222" })) :=
  (requestPairingCode_contract { status := SessionStatus.connecting } "+1 (555) 222"
    (fun n => .ok ("CODE-" ++ n))).2.1 "CODE-1555222" rfl


/-! ## Claim C10 — resolved keys carry a remote JID at the socket -/

theorem replaceFirst_ne_empty (s pat rep : String) (hs : s ≠ "") (hrep : rep ≠ "") :
    replaceFirst s pat rep ≠ "" := by
  rw [replaceFirst]
  cases h : splitFirst pat.data s.data with
  | none => exact hs
  | some pr =>
    intro heq
    apply hrep
    have := congrArg String.data heq
    simp only at this
    have h2 := List.append_eq_nil.mp this
    have h3 := List.append_eq_nil.mp h2.1
    cases rep with
    | mk d => exact congrArg String.mk h3.2

theorem toBaileysJid_ne_empty (c : String) (hc : c ≠ "") : toBaileysJid c ≠ "" := by
  rw [toBaileysJid]
  rw [if_neg hc]
  split
  · exact hc
  split
  · exact hc
  split
  · exact hc
  split
  · exact replaceFirst_ne_empty c "@c.us" "@s.whatsapp.net" hc (by decide)
  split
  · exact hc
  split
  · exact append_ne_empty_right (by decide)
  · exact hc

theorem resolveWithRemote_nonempty (s : Session) (chatId messageId : String)
    (hchat : chatId ≠ "") (key : WAMessageKey) (s' : Session)
    (h : resolveMessageKeyWithRemote s chatId messageId = .ok (key, s')) :
    ∃ r, key.remoteJid = some r ∧ r ≠ "" := by
  rw [resolveMessageKeyWithRemote] at h
  cases hres : resolveMessageKey s chatId messageId with
  | error e => rw [hres] at h; exact absurd h (by simp)
  | ok p =>
    rw [hres] at h
    have hkey : key = { p.1 with remoteJid := some (optStrOr p.1.remoteJid (toBaileysJid chatId)) } := by
      cases h; rfl
    refine ⟨optStrOr p.1.remoteJid (toBaileysJid chatId), by rw [hkey], ?_⟩
    cases hrj : p.1.remoteJid with
    | none => simp only [optStrOr]; exact toBaileysJid_ne_empty chatId hchat
    | some v =>
      by_cases hv : v = ""
      · simp only [optStrOr, if_pos hv]; exact toBaileysJid_ne_empty chatId hchat
      · simp only [optStrOr, if_neg hv]; exact hv

/-- C10 (amended): a resolver key lacking a truthy remote JID is replaced by
the normalized caller-supplied chat id before any socket call of
`reactToMessage` / `starMessage` / `deleteMessage`; whenever the supplied
chat id is non-empty, the key handed to the socket therefore carries a
non-empty remote JID (so the non-null assertions hold).  With an *empty*
chat id the replacement still happens but can itself be empty (see the
counterexample). -/
theorem resolved_key_remote_amended (s : Session) (chatId messageId emoji : String)
    (nowMs : Nat) (starFlag forEveryone : Bool) (hchat : chatId ≠ "") :
    (∀ key s', resolveMessageKeyWithRemote s chatId messageId = .ok (key, s') →
      ∃ r, key.remoteJid = some r ∧ r ≠ "") ∧
    (∀ call s', reactToMessage s chatId messageId emoji = .ok (call, s') →
      ∃ r k, r ≠ "" ∧ call = .sendReaction r emoji k ∧ k.remoteJid = some r) ∧
    (∀ call s', starMessage s chatId messageId starFlag = .ok (call, s') →
      ∃ r ids, r ≠ "" ∧ call = .star r ids starFlag) ∧
    (∀ call s', deleteMessage s nowMs chatId messageId forEveryone = .ok (call, s') →
      (∃ r k, r ≠ "" ∧ call = .sendDelete r k ∧ k.remoteJid = some r) ∨
      (∃ r k, r ≠ "" ∧ call = .chatModifyDeleteForMe k nowMs r ∧ k.remoteJid = some r)) := by
  refine ⟨fun key s' h => resolveWithRemote_nonempty s chatId messageId hchat key s' h,
    ?_, ?_, ?_⟩
  · intro call s' h
    rw [reactToMessage] at h
    by_cases hconn : s.status = SessionStatus.connected
    · rw [if_neg (by simp [hconn])] at h
      cases hres : resolveMessageKeyWithRemote s chatId messageId with
      | error e => rw [hres] at h; exact absurd h (by simp)
      | ok p =>
        rw [hres] at h
        dsimp only at h
        obtain ⟨r, hr, hrne⟩ :=
          resolveWithRemote_nonempty s chatId messageId hchat p.1 p.2 (by rw [hres])
        refine ⟨r, p.1, hrne, ?_, hr⟩
        cases h
        rw [hr]
        rfl
    · rw [if_pos (by simp [hconn])] at h
      exact absurd h (by simp)
  · intro call s' h
    rw [starMessage] at h
    by_cases hconn : s.status = SessionStatus.connected
    · rw [if_neg (by simp [hconn])] at h
      cases hres : resolveMessageKeyWithRemote s chatId messageId with
      | error e => rw [hres] at h; exact absurd h (by simp)
      | ok p =>
        rw [hres] at h
        dsimp only at h
        obtain ⟨r, hr, hrne⟩ :=
          resolveWithRemote_nonempty s chatId messageId hchat p.1 p.2 (by rw [hres])
        by_cases hid : optStrTruthy p.1.id = true
        · rw [if_neg (by simp [hid])] at h
          refine ⟨r, [(p.1.id.getD "", p.1.fromMe)], hrne, ?_⟩
          cases h
          rw [hr]
          rfl
        · rw [if_pos (by simpa using hid)] at h
          exact absurd h (by simp)
    · rw [if_pos (by simp [hconn])] at h
      exact absurd h (by simp)
  · intro call s' h
    rw [deleteMessage] at h
    by_cases hconn : s.status = SessionStatus.connected
    · rw [if_neg (by simp [hconn])] at h
      cases hres : resolveMessageKeyWithRemote s chatId messageId with
      | error e => rw [hres] at h; exact absurd h (by simp)
      | ok p =>
        rw [hres] at h
        dsimp only at h
        obtain ⟨r, hr, hrne⟩ :=
          resolveWithRemote_nonempty s chatId messageId hchat p.1 p.2 (by rw [hres])
        cases forEveryone with
        | true =>
          left
          refine ⟨r, p.1, hrne, ?_, hr⟩
          rw [if_pos rfl] at h
          cases h
          rw [hr]
          rfl
        | false =>
          right
          refine ⟨r, p.1, hrne, ?_, hr⟩
          rw [if_neg (by simp)] at h
          cases h
          rw [hr]
          rfl
    · rw [if_pos (by simp [hconn])] at h
      exact absurd h (by simp)


theorem resolved_key_empty_remote_counterexample :
    ∃ s', reactToMessage
      (Session.registerMessageKey { status := SessionStatus.connected }
        (some { id := some "m1" })) "" "m1" "x" =
      .ok (SocketCall.sendReaction "" "x" { remoteJid := some "", id := some "m1" }, s') :=
  ⟨_, rfl⟩

theorem resolved_key_remote_amended_witness :
    ∃ r k, r ≠ "" ∧
      SocketCall.sendReaction "555@s.whatsapp.net" "x"
        { remoteJid := some "555@s.whatsapp.net", fromMe := some false, id := some "m1" } =
        SocketCall.sendReaction r "x" k ∧ k.remoteJid = some r :=
  (resolved_key_remote_amended
    (Session.registerMessageKey { status := SessionStatus.connected }
      (some { remoteJid := some "555@s.whatsapp.net", fromMe := some false,
              id := some "m1" }))
    "555@c.us" "m1" "x" 0 false false (by decide)).2.1
    (SocketCall.sendReaction "555@s.whatsapp.net" "x"
      { remoteJid := some "555@s.whatsapp.net", fromMe := some false, id := some "m1" })
    _ rfl


/-! ## Claims C4 and C5 — best-effort quoting; chat-state last-message requirement -/

theorem quoted_resolution_miss_fails_send :
    sendTextMessage { status := SessionStatus.connected } "555@s.whatsapp.net" "hi"
      (some { quotedMessageId := some "zzz", linkPreview := some false })
      (fun _ => .error ()) =
      .error resolveMissMessage := rfl

/-- C4 (amended): quoted-message resolution is only partially best-effort —
when the resolver yields a key but no message object is found
(`getMessageById` returns `null`), the text is sent without quote context;
but when the resolver exhausts all strategies and throws, the error
propagates and the send fails. -/
theorem quoted_resolution_best_effort_amended (s : Session) (jid text qid : String)
    (opts : SendOptions) (fetchPreview : String → Except Unit (Option PreviewData))
    (hq : opts.quotedMessageId = some qid) (hqne : qid ≠ "")
    (hconn : s.status = SessionStatus.connected) :
    (∀ s', getMessageById s jid qid = .ok (none, s') →
      ∃ m lp, sendTextMessage s jid text (some opts) fetchPreview =
        .ok (.sendText jid text none m lp, s')) ∧
    (∀ e, getMessageById s jid qid = .error e →
      sendTextMessage s jid text (some opts) fetchPreview = .error e) := by
  constructor
  · intro s' hok
    rw [sendTextMessage]
    rw [if_neg (by simp [hconn])]
    simp only [Option.bind, hq, getQuotedMessage, hok, if_neg hqne]
    exact ⟨_, _, rfl⟩
  · intro e herr
    rw [sendTextMessage]
    rw [if_neg (by simp [hconn])]
    simp only [Option.bind, hq, getQuotedMessage, herr, if_neg hqne]

theorem quoted_resolution_best_effort_amended_witness :
    ∃ m lp, sendTextMessage
      (Session.registerMessageKey { status := SessionStatus.connected }
        (some { id := some "q1" }))
      "" "hi"
      (some { quotedMessageId := some "q1", linkPreview := some false })
      (fun _ => .error ()) =
      .ok (.sendText "" "hi" none m lp,
        Session.registerMessageKey
          (Session.registerMessageKey { status := SessionStatus.connected }
            (some { id := some "q1" }))
          (some { remoteJid := some "", id := some "q1" })) :=
  (quoted_resolution_best_effort_amended
    (Session.registerMessageKey { status := SessionStatus.connected }
      (some { id := some "q1" }))
    "" "hi" "q1" { quotedMessageId := some "q1", linkPreview := some false }
    (fun _ => .error ()) rfl (by decide) rfl).1 _ rfl

theorem markChatRead_silent_noop :
    markChatRead { status := SessionStatus.connected } "555@c.us" = .ok none := rfl

/-- C5 (amended): of the chat-state actions, only those whose `chatModify`
payload carries a `lastMessages` reference (archive, unarchive, mark-unread,
delete-chat) hard-fail with the explanatory error when the local store holds
no message for the chat; `markChatRead` is a *silent no-op* in that case
(returns without any socket call), and pin, mute and clear never need a
last-message reference at all. -/
theorem chat_state_actions_amended (s : Session) (now nowMs duration : Nat)
    (chatId : String)
    (hconn : s.status = SessionStatus.connected)
    (hempty : getMessagesForChat s chatId = []) :
    archiveChat s now chatId =
      .error "No local messages found in this chat. Receive at least one message before modifying chat state." ∧
    unarchiveChat s now chatId =
      .error "No local messages found in this chat. Receive at least one message before modifying chat state." ∧
    markChatUnread s now chatId =
      .error "No local messages found in this chat. Receive at least one message before modifying chat state." ∧
    deleteChat s now chatId =
      .error "No local messages found in this chat. Receive at least one message before modifying chat state." ∧
    markChatRead s chatId = .ok none ∧
    pinChat s chatId true = .ok (.chatModifyPin true (toBaileysJid chatId)) ∧
    muteChat s nowMs chatId duration =
      .ok (.chatModifyMute (some (nowMs + duration * 1000)) (toBaileysJid chatId)) ∧
    clearChat s chatId = .ok (.chatModifyClear (toBaileysJid chatId)) := by
  have hlast : getLastMessages s chatId 1 = [] := by
    rw [getLastMessages, hempty]
    rfl
  have hmod : getChatModifyLastMessages s now chatId 1 =
      .error "No local messages found in this chat. Receive at least one message before modifying chat state." := by
    rw [getChatModifyLastMessages, hlast]
    rfl
  have hkeys : getLastMessageKeys s chatId 1 = [] := by
    rw [getLastMessageKeys, hlast]
    rfl
  refine ⟨?_, ?_, ?_, ?_, ?_, ?_, ?_, ?_⟩
  · rw [archiveChat, if_neg (by simp [hconn]), hmod]
  · rw [unarchiveChat, if_neg (by simp [hconn]), hmod]
  · rw [markChatUnread, if_neg (by simp [hconn]), hmod]
  · rw [deleteChat, if_neg (by simp [hconn]), hmod]
  · rw [markChatRead, if_neg (by simp [hconn]), hkeys]
    rfl
  · rw [pinChat, if_neg (by simp [hconn])]
  · rw [muteChat, if_neg (by simp [hconn])]
  · rw [clearChat, if_neg (by simp [hconn])]

theorem chat_state_actions_amended_witness :
    archiveChat { status := SessionStatus.connected } 10 "555@c.us" =
      .error "No local messages found in this chat. Receive at least one message before modifying chat state." ∧
    markChatRead { status := SessionStatus.connected } "555@c.us" = .ok none :=
  have h := chat_state_actions_amended { status := SessionStatus.connected } 10 20 30
    "555@c.us" rfl rfl
  ⟨h.1, h.2.2.2.2.1⟩


/-! ## Claim C2 — reconnect cap -/

theorem transientDisconnectRound_init (cfg : ReconnCfg)
    (hmax : 1 ≤ cfg.maxReconnectRetries) :
    transientDisconnectRound cfg reconnInit = reconnLooping := by
  rw [transientDisconnectRound, connectionCloseTransient]
  simp only [reconnInit]
  rw [if_neg (by simp)]
  rw [if_pos (by omega)]
  rfl

theorem transientDisconnectRound_loop (cfg : ReconnCfg)
    (hmax : 1 ≤ cfg.maxReconnectRetries) :
    transientDisconnectRound cfg reconnLooping = reconnLooping := by
  rw [transientDisconnectRound, connectionCloseTransient]
  simp only [reconnLooping]
  rw [if_neg (by simp)]
  rw [if_pos (by omega)]
  rfl

/-- C2: the reconnect cap is never reached — because every scheduled
reconnect goes through `startSession`, which replaces the session object
with a fresh one whose `reconnectAttempts` is `0`, any number `n` of
consecutive transient disconnects (in particular `n` exceeding
`maxReconnectRetries`) leaves the retry counter at `0`, schedules yet
another reconnect, and never emits the terminal `disconnected`
(`connection_lost`) notification — contradicting the claimed
exactly-max-attempts-then-one-notification behaviour. -/
theorem reconnect_cap_never_fires (cfg : ReconnCfg) (n : Nat)
    (hmax : 1 ≤ cfg.maxReconnectRetries) (hn : 1 ≤ n) :
    ((transientDisconnectRound cfg)^[n] reconnInit).disconnectedReasons = [] ∧
    ((transientDisconnectRound cfg)^[n] reconnInit).session =
      some { status := SessionStatus.connecting, reconnectAttempts := 0 } := by
  have hloop : ∀ m, (transientDisconnectRound cfg)^[m] reconnLooping = reconnLooping := by
    intro m
    induction m with
    | zero => rfl
    | succ k ih =>
      rw [Function.iterate_succ_apply, transientDisconnectRound_loop cfg hmax, ih]
  have key : (transientDisconnectRound cfg)^[n] reconnInit = reconnLooping := by
    cases n with
    | zero => omega
    | succ m =>
      rw [Function.iterate_succ_apply, transientDisconnectRound_init cfg hmax, hloop]
  rw [key]
  exact ⟨rfl, rfl⟩

theorem reconnect_cap_never_fires_witness :
    ((transientDisconnectRound { maxReconnectRetries := 5 })^[6] reconnInit).disconnectedReasons
      = [] ∧
    ((transientDisconnectRound { maxReconnectRetries := 5 })^[6] reconnInit).session =
      some { status := SessionStatus.connecting, reconnectAttempts := 0 } :=
  reconnect_cap_never_fires { maxReconnectRetries := 5 } 6 (by decide) (by decide)


/-! ## Claim C7 — not-connected fail-fast -/

/-- C7: not-connected fail-fast — every per-session route (sends, message
actions, chat-state actions, chat/contact/message queries) runs the
`sessionConnected` middleware, which fails the request synchronously with a
distinguishable not-found / not-connected response for a session id absent
from the live map or not in `connected` state, without ever invoking the
handler; and every modelled message-service operation independently guards
with the synchronous `"Session not connected"` error.  Neither path retries. -/
theorem not_connected_fail_fast (st : SMState) (sid : String) {α : Type}
    (handler : SMState → α) (s : Session)
    (jid text chatId messageId emoji : String) (opts : Option SendOptions)
    (fetchPreview : String → Except Unit (Option PreviewData)) (now : Nat)
    (hmw : isConnected st sid = false)
    (hs : ¬ s.status = SessionStatus.connected) :
    (∃ f, routeInvoke st (some sid) handler = .error f) ∧
    sendTextMessage s jid text opts fetchPreview = .error "Session not connected" ∧
    reactToMessage s chatId messageId emoji = .error "Session not connected" ∧
    markChatRead s chatId = .error "Session not connected" ∧
    archiveChat s now chatId = .error "Session not connected" ∧
    deleteChat s now chatId = .error "Session not connected" ∧
    resolveMessageKey s chatId messageId = .error "Session not connected" ∧
    getMessageById s chatId messageId = .error "Session not connected" ∧
    getChats s now (.error ()) = [] := by
  refine ⟨?_, ?_, ?_, ?_, ?_, ?_, ?_, ?_, ?_⟩
  · rw [routeInvoke, sessionConnectedMW]
    by_cases hsid : sid = ""
    · rw [if_pos hsid]; exact ⟨_, rfl⟩
    · rw [if_neg hsid]
      by_cases hhas : hasSession st sid = true
      · rw [if_neg (by simp [hhas]), if_pos (by simp [hmw])]
        exact ⟨_, rfl⟩
      · rw [if_pos (by simpa using hhas)]
        exact ⟨_, rfl⟩
  · rw [sendTextMessage, if_pos (by simp [hs])]
  · rw [reactToMessage, if_pos (by simp [hs])]
  · rw [markChatRead, if_pos (by simp [hs])]
  · rw [archiveChat, if_pos (by simp [hs])]
  · rw [deleteChat, if_pos (by simp [hs])]
  · rw [resolveMessageKey, if_pos (by simp [hs])]
  · rw [getMessageById, if_pos (by simp [hs])]
  · rw [getChats, if_pos (by simp [hs])]

theorem not_connected_fail_fast_witness :
    (∃ f, routeInvoke ({} : SMState) (some "s1")
      (fun st => SMState.getSession st "s1") = .error f) ∧
    sendTextMessage { status := SessionStatus.disconnected } "j" "t" none
      (fun _ => .error ()) = .error "Session not connected" :=
  have h := not_connected_fail_fast {} "s1"
    (fun st => SMState.getSession st "s1")
    { status := SessionStatus.disconnected } "j" "t" "c" "m" "e" none
    (fun _ => .error ()) 0 rfl (by decide)
  ⟨h.1, h.2.1⟩


/-! ## Claim C6 — chat merge completeness -/

theorem chatsHas_iff (m : ChatMap) (k : String) :
    chatsHas m k = true ↔ k ∈ m.map (·.1) := by
  rw [chatsHas, Option.isSome_iff_exists]
  constructor
  · rintro ⟨x, hx⟩
    have hmem := List.mem_of_find?_eq_some hx
    have hpred := List.find?_some hx
    simp only [decide_eq_true_eq] at hpred
    exact List.mem_map.mpr ⟨x, hmem, hpred⟩
  · rintro hk
    obtain ⟨x, hx, hkey⟩ := List.mem_map.mp hk
    have : (m.find? (fun p => p.1 = k)).isSome = true := by
      rw [List.find?_isSome]
      exact ⟨x, hx, by simp [hkey]⟩
    obtain ⟨y, hy⟩ := Option.isSome_iff_exists.mp this
    exact ⟨y, hy⟩

theorem keys_chatsSet (m : ChatMap) (k : String) (v : ChatData) :
    (chatsSet m k v).map (·.1) =
      if chatsHas m k then m.map (·.1) else m.map (·.1) ++ [k] := by
  rw [chatsSet]
  split
  · rw [List.map_map]
    refine List.map_congr_left ?_
    intro p _
    by_cases hp : p.1 = k
    · simp [hp]
    · simp [hp]
  · simp

theorem nodup_keys_chatsSet (m : ChatMap) (k : String) (v : ChatData)
    (h : (m.map (·.1)).Nodup) : ((chatsSet m k v).map (·.1)).Nodup := by
  rw [keys_chatsSet]
  split
  · exact h
  · rename_i hhas
    rw [List.nodup_append]
    refine ⟨h, List.nodup_singleton k, ?_⟩
    intro x hx hk
    rw [List.mem_singleton] at hk
    subst hk
    exact hhas ((chatsHas_iff m x).mpr hx)

theorem mem_keys_chatsSet_self (m : ChatMap) (k : String) (v : ChatData) :
    k ∈ (chatsSet m k v).map (·.1) := by
  rw [keys_chatsSet]
  split
  · rename_i hhas
    exact (chatsHas_iff m k).mp hhas
  · exact List.mem_append_right _ (List.mem_singleton.mpr rfl)

theorem mem_keys_chatsSet_of_mem (m : ChatMap) (k : String) (v : ChatData) (x : String)
    (h : x ∈ m.map (·.1)) : x ∈ (chatsSet m k v).map (·.1) := by
  rw [keys_chatsSet]
  split
  · exact h
  · exact List.mem_append_left _ h

theorem foldl_chatsSet_props {β : Type} (body : ChatMap → β → ChatMap)
    (hbody : ∀ m b, body m b = m ∨ ∃ k v, body m b = chatsSet m k v)
    (l : List β) (m : ChatMap) :
    ((m.map (·.1)).Nodup → (((l.foldl body m)).map (·.1)).Nodup) ∧
    (∀ x, x ∈ m.map (·.1) → x ∈ (l.foldl body m).map (·.1)) := by
  induction l generalizing m with
  | nil => exact ⟨id, fun _ h => h⟩
  | cons b rest ih =>
    rw [List.foldl_cons]
    constructor
    · intro hnd
      refine (ih (body m b)).1 ?_
      rcases hbody m b with h | ⟨k, v, h⟩
      · rw [h]; exact hnd
      · rw [h]; exact nodup_keys_chatsSet m k v hnd
    · intro x hx
      refine (ih (body m b)).2 x ?_
      rcases hbody m b with h | ⟨k, v, h⟩
      · rw [h]; exact hx
      · rw [h]; exact mem_keys_chatsSet_of_mem m k v x hx

theorem foldl_mem_target {β : Type} (body : ChatMap → β → ChatMap) (l : List β) (b0 : β)
    (target : String) (hmem0 : b0 ∈ l)
    (hbody : ∀ m b, body m b = m ∨ ∃ k v, body m b = chatsSet m k v)
    (hself : ∀ m, target ∈ (body m b0).map (·.1)) :
    ∀ m, target ∈ (l.foldl body m).map (·.1) := by
  induction l with
  | nil => cases hmem0
  | cons b rest ih =>
    intro m
    rw [List.foldl_cons]
    rcases List.mem_cons.mp hmem0 with h | h
    · subst h
      exact (foldl_chatsSet_props body hbody rest (body m b0)).2 target (hself m)
    · exact ih h (body m b)

theorem step1_body_cases (s : Session) (now : Nat) :
    ∀ (m : ChatMap) (chat : Conversation),
      (match chat.id with
       | none => m
       | some cid =>
         if cid = "" || cid = "status@broadcast" then m
         else chatsSet m cid
           (mapStoredChatToApi s now cid (some chat) (s.store.groupMetadataFor cid)))
        = m ∨
      ∃ k v, (match chat.id with
       | none => m
       | some cid =>
         if cid = "" || cid = "status@broadcast" then m
         else chatsSet m cid
           (mapStoredChatToApi s now cid (some chat) (s.store.groupMetadataFor cid)))
        = chatsSet m k v := by
  intro m chat
  cases chat.id with
  | none => exact Or.inl rfl
  | some cid =>
    dsimp only
    by_cases h : cid = "" || cid = "status@broadcast"
    · left; simp [h]
    · right
      rw [if_neg h]
      exact ⟨_, _, rfl⟩

theorem step2_body_cases (s : Session) (now : Nat) :
    ∀ (m : ChatMap) (p : String × GroupMetaRecord),
      (if p.1 = "status@broadcast" then m
       else chatsSet m p.1
         (mapStoredChatToApi s now p.1
           (if chatsHas m p.1 then s.store.chatFor p.1 else none) (some p.2))) = m ∨
      ∃ k v, (if p.1 = "status@broadcast" then m
       else chatsSet m p.1
         (mapStoredChatToApi s now p.1
           (if chatsHas m p.1 then s.store.chatFor p.1 else none) (some p.2))) =
        chatsSet m k v := by
  intro m p
  by_cases h : p.1 = "status@broadcast"
  · left; simp [h]
  · right; rw [if_neg h]; exact ⟨_, _, rfl⟩

theorem step3_body_cases (s : Session) (now : Nat) :
    ∀ (m : ChatMap) (jid : String),
      (if jid = "status@broadcast" || chatsHas m jid then m
       else chatsSet m jid (mapStoredChatToApi s now jid none none)) = m ∨
      ∃ k v, (if jid = "status@broadcast" || chatsHas m jid then m
       else chatsSet m jid (mapStoredChatToApi s now jid none none)) = chatsSet m k v := by
  intro m jid
  by_cases h : jid = "status@broadcast" || chatsHas m jid
  · left; simp [h]
  · right; rw [if_neg h]; exact ⟨_, _, rfl⟩

theorem step4_body_cases (s : Session) (now : Nat) :
    ∀ (m : ChatMap) (p : String × GroupMetaRecord),
      (if chatsHas m p.1 then m
       else chatsSet m p.1 (mapStoredChatToApi s now p.1 (s.store.chatFor p.1) (some p.2)))
        = m ∨
      ∃ k v, (if chatsHas m p.1 then m
       else chatsSet m p.1 (mapStoredChatToApi s now p.1 (s.store.chatFor p.1) (some p.2)))
        = chatsSet m k v := by
  intro m p
  by_cases h : chatsHas m p.1
  · left; simp [h]
  · right; rw [if_neg h]; exact ⟨_, _, rfl⟩



/-- C6: chat merge completeness — a chat identifier present only in the
tracked group-metadata source, or only as a chat with observed messages and
no other metadata, appears exactly once among the merged `chatsByJid` keys;
the merged map is deduplicated by chat identifier, and `getChats` returns
exactly its values sorted by most-recent-activity timestamp descending. -/
theorem getChats_merge_complete (s : Session) (now : Nat)
    (fetched : Except Unit (List (String × GroupMetaRecord))) (jid : String)
    (hconn : s.status = SessionStatus.connected)
    (hjid : jid ≠ "status@broadcast")
    (hsrc :
      ((∃ md, (jid, md) ∈ s.store.groupMetadata) ∧
        (∀ c ∈ s.store.chats, ¬ c.id = some jid) ∧
        jid ∉ s.store.messages.map (·.1)) ∨
      ((jid ∈ s.store.messages.map (·.1)) ∧
        (∀ c ∈ s.store.chats, ¬ c.id = some jid) ∧
        (∀ md, (jid, md) ∉ s.store.groupMetadata))) :
    List.count jid ((getChatsMap s now fetched).map (·.1)) = 1 ∧
    ((getChatsMap s now fetched).map (·.1)).Nodup ∧
    (getChats s now fetched).Perm ((getChatsMap s now fetched).map (·.2)) ∧
    (getChats s now fetched).Sorted (fun a b => b.timestamp ≤ a.timestamp) := by
  have nd1 : ((getChatsStep1 s now []).map (·.1)).Nodup := by
    rw [getChatsStep1]
    exact (foldl_chatsSet_props _ (step1_body_cases s now) s.store.chats []).1 (by simp)
  have nd2 : ((getChatsStep2 s now (getChatsStep1 s now [])).map (·.1)).Nodup := by
    rw [getChatsStep2]
    exact (foldl_chatsSet_props _ (step2_body_cases s now) s.store.groupMetadata _).1 nd1
  have nd3 : ((getChatsStep3 s now
      (getChatsStep2 s now (getChatsStep1 s now []))).map (·.1)).Nodup := by
    rw [getChatsStep3]
    exact (foldl_chatsSet_props _ (step3_body_cases s now)
      (s.store.messages.map (·.1)) _).1 nd2
  have hnodup : ((getChatsMap s now fetched).map (·.1)).Nodup := by
    rw [getChatsMap, getChatsStep4.eq_def]
    cases fetched with
    | error e => exact nd3
    | ok groups =>
      exact (foldl_chatsSet_props _ (step4_body_cases s now) groups _).1 nd3
  have hmem3 : jid ∈ ((getChatsStep3 s now
      (getChatsStep2 s now (getChatsStep1 s now []))).map (·.1)) := by
    rcases hsrc with ⟨⟨md, hmd⟩, -, -⟩ | ⟨hmsg, -, -⟩
    · have hmem2 : jid ∈ ((getChatsStep2 s now (getChatsStep1 s now [])).map (·.1)) := by
        rw [getChatsStep2]
        refine foldl_mem_target _ s.store.groupMetadata (jid, md) jid hmd
          (step2_body_cases s now) ?_ _
        intro m
        dsimp only
        rw [if_neg hjid]
        exact mem_keys_chatsSet_self _ _ _
      rw [getChatsStep3]
      exact (foldl_chatsSet_props _ (step3_body_cases s now)
        (s.store.messages.map (·.1)) _).2 jid hmem2
    · rw [getChatsStep3]
      refine foldl_mem_target _ (s.store.messages.map (·.1)) jid jid hmsg
        (step3_body_cases s now) ?_ _
      intro m
      by_cases hhas : chatsHas m jid
      · rw [if_pos (by simp [hhas])]
        exact (chatsHas_iff m jid).mp hhas
      · rw [if_neg (by simp [hjid, hhas])]
        exact mem_keys_chatsSet_self _ _ _
  have hmem : jid ∈ (getChatsMap s now fetched).map (·.1) := by
    rw [getChatsMap, getChatsStep4.eq_def]
    cases fetched with
    | error e => exact hmem3
    | ok groups =>
      exact (foldl_chatsSet_props _ (step4_body_cases s now) groups _).2 jid hmem3
  have hgc : getChats s now fetched =
      List.insertionSort (fun a b : ChatData => b.timestamp ≤ a.timestamp)
        ((getChatsMap s now fetched).map (·.2)) := by
    rw [getChats, if_neg (by simp [hconn])]
  haveI htot : IsTotal ChatData (fun a b => b.timestamp ≤ a.timestamp) :=
    ⟨fun a b => le_total b.timestamp a.timestamp⟩
  haveI htrans : IsTrans ChatData (fun a b => b.timestamp ≤ a.timestamp) :=
    ⟨fun _ _ _ hab hbc => le_trans hbc hab⟩
  refine ⟨List.count_eq_one_of_mem hnodup hmem, hnodup, ?_, ?_⟩
  · rw [hgc]
    exact List.perm_insertionSort _ _
  · rw [hgc]
    exact List.sorted_insertionSort _ _

theorem getChats_merge_complete_witness :
    List.count "g1@g.us"
      ((getChatsMap
        { status := SessionStatus.connected,
          store := { groupMetadata := [("g1@g.us", {})] } } 0 (.error ())).map (·.1)) = 1 ∧
    (getChats
      { status := SessionStatus.connected,
        store := { groupMetadata := [("g1@g.us", {})] } } 0 (.error ())).Sorted
      (fun a b => b.timestamp ≤ a.timestamp) :=
  have h := getChats_merge_complete
    { status := SessionStatus.connected, store := { groupMetadata := [("g1@g.us", {})] } }
    0 (.error ()) "g1@g.us" rfl (by decide)
    (Or.inl ⟨⟨{}, by simp⟩, by simp, by simp⟩)
  ⟨h.1, h.2.2.2⟩


end BaileysApi
